import Mathlib

/-!
Verification of the email-template reconciliation tool.

The JavaScript source is shallowly embedded: JS runtime values are modelled
by the inductive type `JVal`, the management-API client by a state-passing
`Client` record, and every embedded function additionally returns the list
of HTTP requests it issued, so that frame properties (which calls were
made, in which order) become provable statements.
-/

set_option autoImplicit false

/-- Model of a JavaScript runtime value (JSON data plus `undefined`). -/
inductive JVal where
  | undefined : JVal
  | null : JVal
  | bool (b : Bool) : JVal
  | num (n : Int) : JVal
  | str (s : String) : JVal
  | arr (elems : List JVal) : JVal
  | obj (fields : List (String × JVal)) : JVal
deriving Repr

/-- JS truthiness of a value. -/
def JVal.truthy : JVal → Bool
  | .undefined => false
  | .null => false
  | .bool b => b
  | .num n => n != 0
  | .str s => s != ""
  | .arr _ => true
  | .obj _ => true

/-- Property access `v.k`; returns `undefined` for absent fields and
non-objects, like optional chaining on data values. -/
def JVal.get : JVal → String → JVal
  | .obj fields, k =>
    match fields.find? (fun p => p.1 == k) with
    | some p => p.2
    | none => .undefined
  | _, _ => .undefined

/-- JS `a || b`. -/
def jor (a b : JVal) : JVal := if a.truthy then a else b

/-- `Array.isArray`. -/
def JVal.isArr : JVal → Bool
  | .arr _ => true
  | _ => false

/-- Elements of an array value, `[]` for non-arrays. -/
def JVal.asArr : JVal → List JVal
  | .arr xs => xs
  | _ => []

/-- JS `typeof v === "object"` (true for `null`, arrays and objects). -/
def JVal.typeofObject : JVal → Bool
  | .null => true
  | .arr _ => true
  | .obj _ => true
  | _ => false

/-- `Object.keys(v).length` for the values on which the source calls it. -/
def JVal.keysLength : JVal → Nat
  | .obj fields => fields.length
  | .arr xs => xs.length
  | _ => 0

/-- Test `v === n` for an integer literal `n`. -/
def JVal.isNumLit : JVal → Int → Bool
  | .num m, n => m == n
  | _, _ => false

/-- Test `v >= n` for numeric `v`; `false` otherwise (the source only
compares numeric statuses). -/
def JVal.numGE : JVal → Int → Bool
  | .num m, n => n ≤ m
  | _, _ => false

/-- JS strict equality `===` restricted to primitive values; reference
equality of arrays and objects is not modelled and yields `false`. -/
def jstrictEq : JVal → JVal → Bool
  | .undefined, .undefined => true
  | .null, .null => true
  | .bool a, .bool b => a == b
  | .num a, .num b => a == b
  | .str a, .str b => a == b
  | _, _ => false

mutual
/-- JS string coercion `String(v)` as used in template literals. -/
def jStr : JVal → String
  | .undefined => "undefined"
  | .null => "null"
  | .bool b => cond b "true" "false"
  | .num n => toString n
  | .str s => s
  | .arr xs => jStrList xs
  | .obj _ => "[object Object]"

/-- Array-to-string coercion: elements joined with commas. -/
def jStrList : List JVal → String
  | [] => ""
  | [x] => jStr x
  | x :: xs => jStr x ++ "," ++ jStrList xs
end

/-- JS object spread update `\x7b...v, k: w\x7d`: replaces the field in
place when present, appends it otherwise. -/
def JVal.setField (v : JVal) (k : String) (w : JVal) : JVal :=
  match v with
  | .obj fields =>
    if fields.any (fun p => p.1 == k) then
      .obj (fields.map (fun p => if p.1 == k then (k, w) else p))
    else
      .obj (fields ++ [(k, w)])
  | _ => .obj [(k, w)]

/-- HTTP verbs used by the tool. -/
inductive Verb where
  | GET : Verb
  | PUT : Verb
  | PATCH : Verb
deriving DecidableEq, Repr

/-- One request issued through the management-API client. -/
structure Request where
  verb : Verb
  url : String
  body : JVal
deriving Repr

/-- Outcome of one client call: a returned response value, or a thrown
error value. -/
inductive CallResult where
  | ok (response : JVal) : CallResult
  | err (e : JVal) : CallResult
deriving Repr

/-- The management-API client: a request handler over an abstract remote
state `σ`. -/
structure Client (σ : Type) where
  call : Request → σ → CallResult × σ

/-- Boolean test that an `Except` result is an error. -/
def exceptIsErr {ε α : Type} : Except ε α → Bool
  | .error _ => true
  | .ok _ => false

/-- Key function of the reconciliation index, from the source:
`makeKey(templateType, languageTag)` is the concatenation with a `::`
separator. -/
def makeKey (templateType languageTag : String) : String :=
  templateType ++ "::" ++ languageTag

/-- Lookup in the insertion-ordered map modelling a JS `Map`. -/
def idxGet (m : List (String × JVal)) (k : String) : Option JVal :=
  (m.find? (fun p => p.1 == k)).map (fun p => p.2)

/-- Lookup returning `undefined` on a miss, like `Map.get`. -/
def idxGetJ (m : List (String × JVal)) (k : String) : JVal :=
  (idxGet m k).getD .undefined

/-- `Map.set`: replaces the value in place when the key is present,
appends otherwise. -/
def idxSet (m : List (String × JVal)) (k : String) (v : JVal) :
    List (String × JVal) :=
  if m.any (fun p => p.1 == k) then
    m.map (fun p => if p.1 == k then (k, v) else p)
  else
    m ++ [(k, v)]

/-- A local template record, as produced by the local template store. -/
structure LocalTemplate where
  templateType : String
  languageTag : String
  details : JVal
deriving Repr

/-- The `fullTemplate` object built by the sync loops from a local
template. -/
def fullTemplateOf (l : LocalTemplate) : JVal :=
  .obj [("languageTag", .str l.languageTag),
        ("templateType", .str l.templateType),
        ("details", l.details)]

/-- Key of a remote template entry, as the index computes it:
`makeKey(t.templateType, t.languageTag)` with JS string coercion. -/
def remoteKey (t : JVal) : String :=
  makeKey (jStr (t.get "templateType")) (jStr (t.get "languageTag"))

/-- One iteration of the index-building loop: entries with truthy
`templateType` and `languageTag` are inserted, the rest skipped. -/
def buildStep (m : List (String × JVal)) (t : JVal) : List (String × JVal) :=
  if (t.get "templateType").truthy && (t.get "languageTag").truthy then
    idxSet m (remoteKey t) t
  else m

/-- The remote index built by `syncEmailTemplates`: remote entries with
truthy `templateType` and `languageTag` are inserted keyed by `makeKey`,
later entries overwriting earlier ones. -/
def buildIndex (rts : List JVal) : List (String × JVal) :=
  rts.foldl buildStep []

/-- The listing request `GET /api/<emailTemplatesPath>`. -/
def listRequest (emailTemplatesPath : String) : Request :=
  ⟨.GET, "/api/" ++ emailTemplatesPath, .undefined⟩

/-- Embedding of `listEmailTemplates` (identical in every version of the
source file): returns the array body when the response data is an array,
`null` when it is not, `null` when the call throws with status 404 or 405,
and rethrows a wrapped error otherwise. -/
def listEmailTemplates {σ : Type} (c : Client σ) (emailTemplatesPath : String)
    (s : σ) : Except JVal (Option (List JVal)) × List Request × σ :=
  let req := listRequest emailTemplatesPath
  match c.call req s with
  | (.ok response, s1) =>
    if (response.get "data").truthy && (response.get "data").isArr then
      (.ok (some (response.get "data").asArr), [req], s1)
    else
      (.ok none, [req], s1)
  | (.err error, s1) =>
    if (error.get "status").isNumLit 404 || (error.get "status").isNumLit 405 then
      (.ok none, [req], s1)
    else
      (.error (.str ("Failed to list email templates: "
        ++ jStr (jor (error.get "message") (.str (jStr error))))), [req], s1)

/-- JS `typeof` as a string, for interpolated diagnostics. -/
def jsTypeof : JVal → String
  | .undefined => "undefined"
  | .null => "object"
  | .bool _ => "boolean"
  | .num _ => "number"
  | .str _ => "string"
  | .arr _ => "object"
  | .obj _ => "object"

mutual
/-- JSON rendering used in interpolated messages and for `meta.json`;
whitespace differs from the pretty-printed `JSON.stringify` output, which
no claim inspects. -/
def jsonStringify : JVal → String
  | .undefined => "null"
  | .null => "null"
  | .bool b => cond b "true" "false"
  | .num n => toString n
  | .str s => "\"" ++ s ++ "\""
  | .arr xs => "[" ++ jsonStringifyList xs ++ "]"
  | .obj fs => "\x7b" ++ jsonStringifyFields fs ++ "\x7d"

/-- Renders array elements. -/
def jsonStringifyList : List JVal → String
  | [] => ""
  | [x] => jsonStringify x
  | x :: xs => jsonStringify x ++ "," ++ jsonStringifyList xs

/-- Renders object fields. -/
def jsonStringifyFields : List (String × JVal) → String
  | [] => ""
  | [(k, v)] => "\"" ++ k ++ "\":" ++ jsonStringify v
  | (k, v) :: fs => "\"" ++ k ++ "\":" ++ jsonStringify v ++ "," ++ jsonStringifyFields fs
end

namespace EmailTemplatesApi

/-- One entry of the results array returned by `syncEmailTemplates`.
The `requestMethod` field is `none` when the source object carries no
`request` field (dry-run results). -/
structure SyncResult where
  action : String
  key : String
  localT : LocalTemplate
  remote : JVal
  dryRun : Bool
  requestMethod : Option String
deriving Repr

/-- Diagnostic payload of the error thrown when the bulk update fails:
the components interpolated into the detailed message. -/
structure BulkError where
  errMsg : JVal
  url : String
  status : JVal
  responseBody : JVal
deriving Repr

/-- Errors thrown by `syncEmailTemplates`: a propagated listing failure,
or a failed bulk write. -/
inductive SyncFailure where
  | listFailed (e : JVal) : SyncFailure
  | bulkFailed (e : BulkError) : SyncFailure
deriving Repr

/-- Diagnostic payload extracted from a thrown error by the catch block of
the bulk update. -/
def mkBulkError (basePath : String) (error : JVal) : BulkError :=
  { errMsg := jor (error.get "message") (.str (jStr error))
    url := basePath
    status := jor (error.get "status") ((error.get "response").get "status")
    responseBody := jor (jor ((error.get "response").get "data") (error.get "data"))
      (error.get "body") }

/-- Embedding of the current `syncEmailTemplates`: list the remote
templates, compute one result per local template (update when the
authoritative index holds the key, create when it does not, upsert when
the listing is unsupported), return the results unchanged under dry-run,
and otherwise issue a single bulk `PUT` carrying every template. -/
def syncEmailTemplates {σ : Type} (c : Client σ) (emailTemplatesPath : String)
    (localTemplates : List LocalTemplate) (dryRun verbose : Bool) (s : σ) :
    Except SyncFailure (List SyncResult) × List Request × σ :=
  match listEmailTemplates c emailTemplatesPath s with
  | (.error e, tr, s1) => (.error (.listFailed e), tr, s1)
  | (.ok remoteTemplates, tr, s1) =>
    let hasRemoteIndex := remoteTemplates.isSome
    let remoteIndex := buildIndex (remoteTemplates.getD [])
    let templatesToSync := localTemplates.map fullTemplateOf
    let results := localTemplates.map (fun l =>
      let key := makeKey l.templateType l.languageTag
      let existing := if hasRemoteIndex then idxGetJ remoteIndex key else .null
      let action :=
        if hasRemoteIndex then (if existing.truthy then "update" else "create")
        else "upsert"
      SyncResult.mk action key l (jor existing .null) dryRun none)
    if dryRun then (.ok results, tr, s1)
    else
      let basePath := "/api/" ++ emailTemplatesPath
      let req : Request := ⟨.PUT, basePath, .obj [("templates", .arr templatesToSync)]⟩
      match c.call req s1 with
      | (.err error, s2) =>
        (.error (.bulkFailed (mkBulkError basePath error)), tr ++ [req], s2)
      | (.ok response, s2) =>
        let status := jor (response.get "status") ((response.get "response").get "status")
        if status.truthy && status.numGE 400 then
          (.error (.bulkFailed (mkBulkError basePath
            (.obj [("message", .str ("API returned error status: " ++ jStr status))]))),
           tr ++ [req], s2)
        else
          let result := jor (response.get "data") response
          let updatedTemplates := if result.isArr then result.asArr else []
          let updatedIndex := buildIndex updatedTemplates
          let results2 := results.map (fun r =>
            let updatedTemplate := idxGetJ updatedIndex r.key
            let existing := if hasRemoteIndex then idxGetJ remoteIndex r.key else .null
            { r with requestMethod := some "PUT",
                     remote := jor (jor updatedTemplate existing) .null })
          (.ok results2, tr ++ [req], s2)

/-- One filesystem effect performed by the export projector. -/
inductive FsOp where
  | mkdir (path : String) : FsOp
  | write (path : String) (content : String) : FsOp
deriving DecidableEq, Repr

/-- JS `String.prototype.trimEnd`. -/
def jsTrimEnd (s : String) : String :=
  String.mk (s.data.reverse.dropWhile Char.isWhitespace).reverse

/-- `path.join` of two segments. -/
def pathJoin (a b : String) : String := a ++ "/" ++ b

/-- The filesystem effects the export loop performs for one remote entry:
nothing when `templateType`, `languageTag` or `details` is missing,
otherwise the directory plus `subject.txt`, the content file chosen by
content type, and `meta.json` when at least one optional field is
present. -/
def entryOps (outputRoot : String) (t : JVal) : List FsOp :=
  let templateType := t.get "templateType"
  let languageTag := t.get "languageTag"
  let details := t.get "details"
  if templateType.truthy && languageTag.truthy && details.truthy then
    let dir := pathJoin (pathJoin outputRoot (jStr templateType)) (jStr languageTag)
    let subject := match details.get "subject" with | .str s => s | _ => ""
    let content := match details.get "content" with | .str s => s | _ => ""
    let contentType := jor (details.get "contentType") .undefined
    let contentFile :=
      if jstrictEq contentType (.str "text/plain") then "content.txt" else "content.html"
    let meta : List (String × JVal) :=
      (if (details.get "replyTo").truthy then [("replyTo", details.get "replyTo")] else [])
      ++ (if (details.get "sendFrom").truthy then [("sendFrom", details.get "sendFrom")] else [])
      ++ (if (details.get "contentType").truthy then [("contentType", details.get "contentType")] else [])
    [FsOp.mkdir dir,
     FsOp.write (pathJoin dir "subject.txt") (jsTrimEnd subject ++ "\n"),
     FsOp.write (pathJoin dir contentFile) (jsTrimEnd content ++ "\n")]
    ++ (if meta.length > 0 then
          [FsOp.write (pathJoin dir "meta.json") (jsonStringify (.obj meta) ++ "\n")]
        else [])
  else []

/-- The exact message of the error thrown when the listing endpoint is
unavailable; it names the `LOGTO_EMAIL_TEMPLATES_PATH` override. -/
def listingUnavailableMsg : String :=
  "Email template list endpoint is not available (got 404/405). "
  ++ "Set LOGTO_EMAIL_TEMPLATES_PATH to the correct path for your tenant."

/-- Return value of `exportEmailTemplates`. -/
structure ExportResult where
  count : Nat
  outDir : String
  templates : List JVal
deriving Repr

/-- Embedding of `exportEmailTemplates`. The ambient `path.resolve` is
abstracted as the function argument `resolve`; filesystem effects are
returned as a list of operations. -/
def exportEmailTemplates {σ : Type} (c : Client σ) (resolve : String → String)
    (emailTemplatesPath outDir : String) (s : σ) :
    Except String ExportResult × List Request × List FsOp × σ :=
  match listEmailTemplates c emailTemplatesPath s with
  | (.error e, tr, s1) => (.error (jStr e), tr, [], s1)
  | (.ok none, tr, s1) => (.error listingUnavailableMsg, tr, [], s1)
  | (.ok (some remoteTemplates), tr, s1) =>
    let outputRoot := resolve outDir
    (.ok ⟨remoteTemplates.length, outputRoot, remoteTemplates⟩, tr,
     FsOp.mkdir outputRoot :: remoteTemplates.flatMap (entryOps outputRoot), s1)

end EmailTemplatesApi

namespace Part001

/-- Diagnostic record pushed for one failed request strategy. -/
structure ErrorInfo where
  method : String
  url : String
  status : JVal
  statusText : JVal
  message : JVal
  response : JVal
  fullError : JVal
deriving Repr

/-- Result of `tryUpdateById` or `tryCreate`: success with the accepted
response, or failure carrying the thrown error value and the diagnostics
of every attempted strategy. -/
structure Attempt where
  ok : Bool
  method : String
  response : JVal
  rawError : JVal
  errors : List ErrorInfo
deriving Repr

/-- Builds the `errorInfo` object recorded in a catch block. -/
def mkErrorInfo (method url : String) (e fullError : JVal) : ErrorInfo :=
  { method := method
    url := url
    status := jor (e.get "status") ((e.get "response").get "status")
    statusText := jor (e.get "statusText") ((e.get "response").get "statusText")
    message := jor (e.get "message") (.str (jStr e))
    response := jor (jor ((e.get "response").get "data") (e.get "data")) (e.get "body")
    fullError := fullError }

/-- The aggregate failure built after the last update strategy: the
combined error message with every recorded diagnostic. -/
def exhausted (errors : List ErrorInfo) : Attempt :=
  { ok := false
    method := "PUT"
    response := .undefined
    rawError := .obj [("message", .str "All update strategies failed")]
    errors := errors }

/-- Strategy C of `tryUpdateById`: `PATCH <basePath>/<id>` with the full
template; the last stage, so any failure yields the aggregate error. -/
def updateStageC {σ : Type} (c : Client σ) (basePath : String) (id fullTemplate : JVal)
    (errors : List ErrorInfo) (tr : List Request) (s : σ) : Attempt × List Request × σ :=
  let req : Request := ⟨.PATCH, basePath ++ "/" ++ jStr id, fullTemplate⟩
  match c.call req s with
  | (.ok response, s1) =>
    let result := jor (response.get "data") response
    if result.truthy && ((result.get "id").truthy || (result.get "templateType").truthy) then
      ({ ok := true, method := "PATCH", response := result, rawError := .undefined,
         errors := [] }, tr ++ [req], s1)
    else
      (exhausted errors, tr ++ [req], s1)
  | (.err e, s1) =>
    (exhausted (errors ++ [mkErrorInfo "PATCH" (basePath ++ "/" ++ jStr id) e .undefined]),
     tr ++ [req], s1)

/-- Strategy B of `tryUpdateById`: `PUT <basePath>` with a one-element
`templates` batch; any failure, whatever its status, falls through to
strategy C. -/
def updateStageB {σ : Type} (c : Client σ) (basePath : String) (id fullTemplate : JVal)
    (errors : List ErrorInfo) (tr : List Request) (s : σ) : Attempt × List Request × σ :=
  let req : Request := ⟨.PUT, basePath, .obj [("templates", .arr [fullTemplate])]⟩
  match c.call req s with
  | (.ok response, s1) =>
    let result := jor (response.get "data") response
    if result.truthy then
      let template :=
        match result with
        | .arr xs =>
          jor ((xs.find? (fun t => jstrictEq (t.get "id") id)).getD .undefined) (xs.headD .undefined)
        | _ => result
      if template.truthy && ((template.get "id").truthy || (template.get "templateType").truthy) then
        ({ ok := true, method := "PUT (batch)", response := template, rawError := .undefined,
           errors := [] }, tr ++ [req], s1)
      else
        updateStageC c basePath id fullTemplate errors (tr ++ [req]) s1
    else
      updateStageC c basePath id fullTemplate errors (tr ++ [req]) s1
  | (.err e, s1) =>
    updateStageC c basePath id fullTemplate
      (errors ++ [mkErrorInfo "PUT (batch)" basePath e .undefined]) (tr ++ [req]) s1

/-- Embedding of `tryUpdateById` from the per-item version: strategy A is
`PUT <basePath>/<id>` with the full template; a thrown status other than
404 or 405 stops the whole operation at once, otherwise strategies B and
C follow in order. -/
def tryUpdateById {σ : Type} (c : Client σ) (emailTemplatesPath : String)
    (id fullTemplate : JVal) (s : σ) : Attempt × List Request × σ :=
  let basePath := "/api/" ++ emailTemplatesPath
  let req : Request := ⟨.PUT, basePath ++ "/" ++ jStr id, fullTemplate⟩
  match c.call req s with
  | (.ok response, s1) =>
    let result := jor (response.get "data") response
    if result.truthy && ((result.get "id").truthy || (result.get "templateType").truthy) then
      ({ ok := true, method := "PUT", response := result, rawError := .undefined,
         errors := [] }, [req], s1)
    else
      updateStageB c basePath id fullTemplate [] [req] s1
  | (.err e, s1) =>
    let info := mkErrorInfo "PUT" (basePath ++ "/" ++ jStr id) e .undefined
    if (e.get "status").isNumLit 404 || (e.get "status").isNumLit 405 then
      updateStageB c basePath id fullTemplate [info] [req] s1
    else
      ({ ok := false, method := "PUT", response := .undefined, rawError := e,
         errors := [info] }, [req], s1)

/-- The aggregate failure of `tryCreate`. -/
def createExhausted (errors : List ErrorInfo) : Attempt :=
  { ok := false
    method := "PUT"
    response := .undefined
    rawError := .obj [("message", .str "All create strategies failed")]
    errors := errors }

/-- Strategy B of `tryCreate`: `PUT <basePath>` with the bare template
object as body. -/
def createStageB {σ : Type} (c : Client σ) (basePath : String) (fullTemplate : JVal)
    (errors : List ErrorInfo) (tr : List Request) (s : σ) : Attempt × List Request × σ :=
  let req : Request := ⟨.PUT, basePath, fullTemplate⟩
  match c.call req s with
  | (.ok response, s1) =>
    let result := jor (response.get "data") response
    if result.truthy && ((result.get "id").truthy || (result.get "templateType").truthy) then
      ({ ok := true, method := "PUT", response := result, rawError := .undefined,
         errors := [] }, tr ++ [req], s1)
    else if (response.get "error").truthy then
      (createExhausted
        (errors ++ [mkErrorInfo "PUT (direct)" basePath (response.get "error")
          (response.get "error")]), tr ++ [req], s1)
    else
      (createExhausted errors, tr ++ [req], s1)
  | (.err e, s1) =>
    (createExhausted (errors ++ [mkErrorInfo "PUT (direct)" basePath e e]),
     tr ++ [req], s1)

/-- Embedding of `tryCreate` from the per-item version: first a
one-element `templates` batch, then the bare template object, both via
`PUT` on the base path. -/
def tryCreate {σ : Type} (c : Client σ) (emailTemplatesPath : String)
    (fullTemplate : JVal) (s : σ) : Attempt × List Request × σ :=
  let basePath := "/api/" ++ emailTemplatesPath
  let req : Request := ⟨.PUT, basePath, .obj [("templates", .arr [fullTemplate])]⟩
  match c.call req s with
  | (.ok response, s1) =>
    let result := jor (response.get "data") response
    let template := match result with | .arr xs => xs.headD .undefined | _ => result
    if result.truthy && template.truthy
        && ((template.get "id").truthy || (template.get "templateType").truthy) then
      ({ ok := true, method := "PUT (batch)", response := template, rawError := .undefined,
         errors := [] }, [req], s1)
    else if result.truthy
        && ((result.get "templateType").truthy || (result.get "languageTag").truthy) then
      ({ ok := true, method := "PUT (batch)", response := result, rawError := .undefined,
         errors := [] }, [req], s1)
    else if (response.get "error").truthy then
      createStageB c basePath fullTemplate
        [mkErrorInfo "PUT (batch)" basePath (response.get "error") (response.get "error")]
        [req] s1
    else
      createStageB c basePath fullTemplate [] [req] s1
  | (.err e, s1) =>
    createStageB c basePath fullTemplate [mkErrorInfo "PUT (batch)" basePath e e] [req] s1

/-- One entry of the results array of the per-item `syncEmailTemplates`;
`requestMethod` is `none` for dry-run entries, which carry no `request`
field. -/
structure SyncResult where
  action : String
  key : String
  localT : LocalTemplate
  remote : JVal
  dryRun : Bool
  requestMethod : Option String
deriving Repr

/-- Which per-item path failed. -/
inductive SyncErrKind where
  | updateFailed : SyncErrKind
  | createFailed : SyncErrKind
deriving DecidableEq, Repr

/-- Components of the detailed error thrown when an item fails: the
failing item identity and the diagnostics of every attempted strategy. -/
structure SyncItemError where
  kind : SyncErrKind
  failedId : JVal
  templateType : String
  languageTag : String
  errMsg : JVal
  attemptErrors : List ErrorInfo
deriving Repr

/-- The `attempt.error?.message || String(attempt.error)` interpolation. -/
def attemptErrMsg (a : Attempt) : JVal :=
  jor (a.rawError.get "message") (.str (jStr a.rawError))

/-- One iteration of the sync loop: computes the action for one local
template and, in apply mode, performs the matching write path, extending
the in-memory index after a create that returned an id. -/
def processLocal {σ : Type} (c : Client σ) (emailTemplatesPath : String)
    (dryRun verbose : Bool) (hasIdx : Bool) (idx : List (String × JVal))
    (l : LocalTemplate) (s : σ) :
    Except SyncItemError (SyncResult × List (String × JVal)) × List Request × σ :=
  let key := makeKey l.templateType l.languageTag
  let existing := if hasIdx then idxGetJ idx key else .null
  let fullTemplate := fullTemplateOf l
  let action :=
    if hasIdx then (if existing.truthy then "update" else "create") else "upsert"
  if dryRun then
    (.ok (⟨action, key, l, jor existing .null, true, none⟩, idx), [], s)
  else if (existing.get "id").truthy then
    match tryUpdateById c emailTemplatesPath (existing.get "id") fullTemplate s with
    | (a, tr, s1) =>
      if a.ok then
        (.ok (⟨action, key, l, existing, false, some a.method⟩, idx), tr, s1)
      else
        (.error ⟨.updateFailed, existing.get "id", l.templateType, l.languageTag,
          attemptErrMsg a, a.errors⟩, tr, s1)
  else
    match tryCreate c emailTemplatesPath fullTemplate s with
    | (a, tr, s1) =>
      if a.ok then
        let idx2 := if (a.response.get "id").truthy then idxSet idx key a.response else idx
        (.ok (⟨action, key, l, .null, false, some a.method⟩, idx2), tr, s1)
      else
        (.error ⟨.createFailed, .undefined, l.templateType, l.languageTag,
          attemptErrMsg a, a.errors⟩, tr, s1)

/-- The sequential sync loop over the local templates; threads the remote
state, the request trace and the in-memory index, and stops at the first
failing item. -/
def syncLocals {σ : Type} (c : Client σ) (emailTemplatesPath : String)
    (dryRun verbose : Bool) (hasIdx : Bool) :
    List LocalTemplate → List (String × JVal) → σ →
    Except SyncItemError (List SyncResult) × List Request × List (String × JVal) × σ
  | [], idx, s => (.ok [], [], idx, s)
  | l :: ls, idx, s =>
    match processLocal c emailTemplatesPath dryRun verbose hasIdx idx l s with
    | (.error e, tr, s1) => (.error e, tr, idx, s1)
    | (.ok (r, idx1), tr, s1) =>
      match syncLocals c emailTemplatesPath dryRun verbose hasIdx ls idx1 s1 with
      | (res, tr2, idx2, s2) => (res.map (fun rs => r :: rs), tr ++ tr2, idx2, s2)

/-- Errors thrown by the per-item `syncEmailTemplates`. -/
inductive SyncError where
  | listFailed (e : JVal) : SyncError
  | itemFailed (e : SyncItemError) : SyncError
deriving Repr

/-- Embedding of the per-item `syncEmailTemplates`. -/
def syncEmailTemplates {σ : Type} (c : Client σ) (emailTemplatesPath : String)
    (localTemplates : List LocalTemplate) (dryRun verbose : Bool) (s : σ) :
    Except SyncError (List SyncResult) × List Request × σ :=
  match listEmailTemplates c emailTemplatesPath s with
  | (.error e, tr, s1) => (.error (.listFailed e), tr, s1)
  | (.ok remoteTemplates, tr, s1) =>
    let hasIdx := remoteTemplates.isSome
    let idx := buildIndex (remoteTemplates.getD [])
    match syncLocals c emailTemplatesPath dryRun verbose hasIdx localTemplates idx s1 with
    | (.error e, tr2, _, s2) => (.error (.itemFailed e), tr ++ tr2, s2)
    | (.ok rs, tr2, _, s2) => (.ok rs, tr ++ tr2, s2)

end Part001

namespace Part000

/-- Diagnostic record built by the single catch block of this version of
`tryUpdateById`. -/
structure ErrorInfo where
  method : String
  url : String
  status : JVal
  message : JVal
  response : JVal
deriving Repr

/-- Result of this version of `tryUpdateById`. -/
structure Attempt where
  ok : Bool
  method : String
  response : JVal
  rawError : JVal
  errorInfo : Option ErrorInfo
deriving Repr

/-- The failure value assembled in the catch block. -/
def mkFail (basePath : String) (id e : JVal) : Attempt :=
  let errorStatus := jor (e.get "status") ((e.get "response").get "status")
  let errorMethod :=
    if errorStatus.isNumLit 405 then "PATCH/PUT"
    else if (e.get "method").truthy then jStr (e.get "method") else "PATCH/PUT"
  { ok := false
    method := errorMethod
    response := .undefined
    rawError := e
    errorInfo := some
      { method := errorMethod
        url := basePath ++ "/" ++ jStr id
        status := errorStatus
        message := jor (e.get "message") (.str (jStr e))
        response := jor (jor ((e.get "response").get "data") (e.get "data")) (e.get "body") } }

/-- Embedding of the single-strategy `tryUpdateById`: one `PUT` of a
one-element batch carrying the id in the body, followed by the
response-shape analysis of its try block (expected fields, empty body,
error-shaped body, warn-and-accept object, invalid type). -/
def tryUpdateById {σ : Type} (c : Client σ) (emailTemplatesPath : String)
    (id fullTemplate : JVal) (s : σ) : Attempt × List Request × σ :=
  let basePath := "/api/" ++ emailTemplatesPath
  let templateWithId := fullTemplate.setField "id" id
  let req : Request := ⟨.PUT, basePath, .obj [("templates", .arr [templateWithId])]⟩
  match c.call req s with
  | (.err e, s1) => (mkFail basePath id e, [req], s1)
  | (.ok response, s1) =>
    let status := jor (response.get "status") ((response.get "response").get "status")
    if status.truthy && status.numGE 400 then
      (mkFail basePath id
        (.obj [("message", .str ("API returned error status: " ++ jStr status))]),
       [req], s1)
    else
      let result := jor (response.get "data") response
      let template :=
        if result.isArr && result.asArr.length > 0 then result.asArr.headD .undefined
        else result
      if template.truthy
          && ((template.get "id").truthy || (template.get "templateType").truthy) then
        ({ ok := true, method := "PUT", response := template, rawError := .undefined,
           errorInfo := none }, [req], s1)
      else if jstrictEq result .undefined || jstrictEq result .null
          || (result.typeofObject && result.keysLength == 0) then
        ({ ok := true, method := "PUT", response := fullTemplate, rawError := .undefined,
           errorInfo := none }, [req], s1)
      else if result.truthy && result.typeofObject then
        if (result.get "error").truthy || (result.get "code").truthy
            || (result.get "message").truthy then
          (mkFail basePath id
            (.obj [("message", .str ("API returned error response: " ++ jsonStringify result))]),
           [req], s1)
        else
          ({ ok := true, method := "PUT", response := result, rawError := .undefined,
             errorInfo := none }, [req], s1)
      else
        (mkFail basePath id
          (.obj [("message",
            .str ("Update succeeded but response format is invalid: received "
              ++ jsTypeof result))]),
         [req], s1)

end Part000

/-- The shape of a stored remote template on the modelled service. -/
def mkRemote (id templateType languageTag details : JVal) : JVal :=
  .obj [("id", id), ("templateType", templateType),
        ("languageTag", languageTag), ("details", details)]

/-- Modelled from the spec: the bulk write of the remote service
creates-or-replaces one entry by its `(templateType, languageTag)` key,
preserving the stored id of a replaced entry and assigning an opaque
fresh id to a created one. The service itself is not part of the
repository; this definition follows section 4.1 of the specification. -/
def upsertOne (st : List JVal) (t : JVal) : List JVal :=
  let k := remoteKey t
  if st.any (fun r => remoteKey r == k) then
    st.map (fun r =>
      if remoteKey r == k then
        mkRemote (r.get "id") (t.get "templateType") (t.get "languageTag") (t.get "details")
      else r)
  else
    st ++ [mkRemote (.str ("id-" ++ k)) (t.get "templateType") (t.get "languageTag")
      (t.get "details")]

/-- Modelled from the spec: a remote service whose state is the list of
stored templates, serving the one logical collection resource the tool
talks to. A read returns the collection with status 200, the bulk write
applies the create-or-replace upsert to every template of its batch and
returns the updated collection, and the partial-update verb is reported
unsupported with status 404. -/
def specServer : Client (List JVal) :=
  ⟨fun req st =>
    match req.verb with
    | .GET => (.ok (.obj [("status", .num 200), ("data", .arr st)]), st)
    | .PUT =>
      let st2 := ((req.body.get "templates").asArr).foldl upsertOne st
      (.ok (.obj [("status", .num 200), ("data", .arr st2)]), st2)
    | .PATCH => (.err (.obj [("status", .num 404), ("message", .str "not found")]), st)⟩

theorem idxGet_cons (a : String × JVal) (m : List (String × JVal)) (k : String) :
    idxGet (a :: m) k = if a.1 == k then some a.2 else idxGet m k := by
  unfold idxGet
  cases h : a.1 == k <;> simp [List.find?_cons, h]

theorem replaceAll_get_self (m : List (String × JVal)) (k : String) (v : JVal)
    (h : m.any (fun p => p.1 == k) = true) :
    idxGet (m.map (fun p => if p.1 == k then (k, v) else p)) k = some v := by
  induction m with
  | nil => simp at h
  | cons a m ih =>
    by_cases ha : (a.1 == k) = true
    · simp only [List.map_cons, ha, if_pos]
      rw [idxGet_cons]
      simp
    · simp only [List.any_cons, ha, Bool.false_or] at h
      simp only [List.map_cons, ha, if_neg, Bool.not_eq_true]
      rw [idxGet_cons]
      simp only [ha, if_neg, Bool.not_eq_true]
      exact ih h

theorem replaceAll_get_ne (m : List (String × JVal)) (k k2 : String) (v : JVal)
    (h : (k2 == k) = false) :
    idxGet (m.map (fun p => if p.1 == k then (k, v) else p)) k2 = idxGet m k2 := by
  induction m with
  | nil => rfl
  | cons a m ih =>
    by_cases ha : (a.1 == k) = true
    · simp only [List.map_cons, ha, if_pos]
      rw [idxGet_cons, idxGet_cons]
      have hak : a.1 = k := by simpa using ha
      have h1 : (k == k2) = false := by
        cases h2 : k == k2
        · rfl
        · exact absurd (by simpa using (beq_iff_eq.mp h2).symm) (by simpa using h)
      have h2 : (a.1 == k2) = false := by rw [hak]; exact h1
      simp only [h1, h2, if_neg, Bool.not_eq_true]
      exact ih
    · simp only [List.map_cons, ha, if_neg, Bool.not_eq_true]
      rw [idxGet_cons, idxGet_cons]
      cases h2 : a.1 == k2
      · simp only [if_neg, Bool.not_eq_true]
        exact ih
      · simp

theorem idxGet_append (m m2 : List (String × JVal)) (k : String) :
    idxGet (m ++ m2) k =
      match idxGet m k with
      | some v => some v
      | none => idxGet m2 k := by
  induction m with
  | nil => simp [idxGet]
  | cons a m ih =>
    rw [List.cons_append, idxGet_cons, idxGet_cons]
    cases h : a.1 == k <;> simp [ih]

theorem any_false_get_none (m : List (String × JVal)) (k : String)
    (h : m.any (fun p => p.1 == k) = false) : idxGet m k = none := by
  induction m with
  | nil => rfl
  | cons a m ih =>
    simp only [List.any_cons, Bool.or_eq_false_iff] at h
    rw [idxGet_cons]
    simp only [h.1, if_neg, Bool.not_eq_true]
    exact ih h.2

theorem idxGet_idxSet_self (m : List (String × JVal)) (k : String) (v : JVal) :
    idxGet (idxSet m k v) k = some v := by
  unfold idxSet
  by_cases h : m.any (fun p => p.1 == k) = true
  · rw [if_pos h]
    exact replaceAll_get_self m k v h
  · rw [if_neg h]
    rw [idxGet_append, any_false_get_none m k (Bool.of_not_eq_true h)]
    rw [idxGet_cons]
    simp

theorem idxGet_idxSet_ne (m : List (String × JVal)) (k : String) (v : JVal)
    (k2 : String) (hne : ¬ k2 = k) :
    idxGet (idxSet m k v) k2 = idxGet m k2 := by
  unfold idxSet
  by_cases h : m.any (fun p => p.1 == k) = true
  · rw [if_pos h]
    exact replaceAll_get_ne m k k2 v (by simpa using hne)
  · rw [if_neg h]
    rw [idxGet_append]
    cases h2 : idxGet m k2
    · rw [idxGet_cons]
      have : (k == k2) = false := by simp; exact fun hx => hne hx.symm
      rw [this]
      simp [idxGet]
    · rfl

theorem idxSet_mem (m : List (String × JVal)) (k : String) (v : JVal) :
    ∀ q ∈ idxSet m k v, q ∈ m ∨ q = (k, v) := by
  unfold idxSet
  by_cases h : m.any (fun p => p.1 == k) = true
  · rw [if_pos h]
    intro q hq
    rcases List.mem_map.mp hq with ⟨p, hp, hpq⟩
    by_cases hpk : (p.1 == k) = true
    · right
      rw [← hpq]
      simp [hpk]
    · left
      rw [← hpq]
      simpa [hpk] using hp
  · rw [if_neg h]
    intro q hq
    rcases List.mem_append.mp hq with h1 | h1
    · exact Or.inl h1
    · exact Or.inr (by simpa using h1)

theorem get_truthy_imp_truthy (t : JVal) (k : String)
    (h : (t.get k).truthy = true) : t.truthy = true := by
  cases t <;> simp_all [JVal.get, JVal.truthy]

theorem foldl_buildStep_values (rts : List JVal) :
    ∀ m, (∀ q ∈ m, q.2.truthy = true) →
      ∀ q ∈ rts.foldl buildStep m, q.2.truthy = true := by
  induction rts with
  | nil => intro m hm; simpa using hm
  | cons t rts ih =>
    intro m hm
    rw [List.foldl_cons]
    apply ih
    intro q hq
    unfold buildStep at hq
    by_cases ht : ((t.get "templateType").truthy && (t.get "languageTag").truthy) = true
    · rw [if_pos ht] at hq
      rcases idxSet_mem _ _ _ q hq with h | h
      · exact hm q h
      · rw [h]
        have h1 : (t.get "templateType").truthy = true := by
          rw [Bool.and_eq_true] at ht
          exact ht.1
        exact get_truthy_imp_truthy t "templateType" h1
    · rw [if_neg ht] at hq
      exact hm q hq

theorem foldl_buildStep_isSome (rts : List JVal) :
    ∀ (m : List (String × JVal)) (k : String),
      (idxGet (rts.foldl buildStep m) k).isSome = true ↔
        ((idxGet m k).isSome = true ∨
          ∃ t ∈ rts,
            ((t.get "templateType").truthy && (t.get "languageTag").truthy) = true
            ∧ remoteKey t = k) := by
  induction rts with
  | nil => intro m k; simp
  | cons t rts ih =>
    intro m k
    rw [List.foldl_cons, ih]
    unfold buildStep
    constructor
    · rintro (h1 | h1)
      · by_cases ht : ((t.get "templateType").truthy && (t.get "languageTag").truthy) = true
        · rw [if_pos ht] at h1
          by_cases hk : k = remoteKey t
          · exact Or.inr ⟨t, List.mem_cons_self t rts, ht, hk.symm⟩
          · rw [idxGet_idxSet_ne m (remoteKey t) t k hk] at h1
            exact Or.inl h1
        · rw [if_neg ht] at h1
          exact Or.inl h1
      · rcases h1 with ⟨u, hu, hut, huk⟩
        exact Or.inr ⟨u, List.mem_cons_of_mem t hu, hut, huk⟩
    · rintro (h1 | h1)
      · by_cases ht : ((t.get "templateType").truthy && (t.get "languageTag").truthy) = true
        · rw [if_pos ht]
          by_cases hk : k = remoteKey t
          · subst hk
            left
            rw [idxGet_idxSet_self]
            rfl
          · left
            rw [idxGet_idxSet_ne m (remoteKey t) t k hk]
            exact h1
        · rw [if_neg ht]
          exact Or.inl h1
      · rcases h1 with ⟨u, hu, hut, huk⟩
        rcases List.mem_cons.mp hu with h2 | h2
        · subst h2
          rw [if_pos hut]
          left
          rw [← huk, idxGet_idxSet_self]
          rfl
        · exact Or.inr ⟨u, h2, hut, huk⟩

theorem buildIndex_values (rts : List JVal) :
    ∀ q ∈ buildIndex rts, q.2.truthy = true :=
  foldl_buildStep_values rts [] (by simp)

theorem buildIndex_isSome_iff (rts : List JVal) (k : String) :
    (idxGet (buildIndex rts) k).isSome = true ↔
      ∃ t ∈ rts,
        ((t.get "templateType").truthy && (t.get "languageTag").truthy) = true
        ∧ remoteKey t = k := by
  rw [buildIndex, foldl_buildStep_isSome]
  simp [idxGet]

theorem idxGetJ_truthy_iff (m : List (String × JVal)) (k : String)
    (hv : ∀ q ∈ m, q.2.truthy = true) :
    (idxGetJ m k).truthy = (idxGet m k).isSome := by
  unfold idxGetJ
  cases h : idxGet m k with
  | none => simp [JVal.truthy]
  | some v =>
    simp only [Option.getD_some, Option.isSome_some]
    unfold idxGet at h
    rcases Option.map_eq_some'.mp h with ⟨p, hp, hpv⟩
    rw [← hpv]
    exact hv p (List.mem_of_find?_eq_some hp)

theorem idxGet_isSome_iff_exists (m : List (String × JVal)) (k : String) :
    (idxGet m k).isSome = true ↔ ∃ q ∈ m, q.1 = k := by
  unfold idxGet
  rw [Option.isSome_map']
  rw [List.find?_isSome]
  constructor
  · rintro ⟨q, hq, hqk⟩
    exact ⟨q, hq, by simpa using hqk⟩
  · rintro ⟨q, hq, hqk⟩
    exact ⟨q, hq, by simpa using hqk⟩

theorem map_map_id {A B : Type} (f : A → B) (g : B → A)
    (h : ∀ a, g (f a) = a) (l : List A) : (l.map f).map g = l := by
  induction l with
  | nil => rfl
  | cons a l ih => simp [h, ih]

theorem namedSync_dry {σ : Type} (c : Client σ) (p : String)
    (locals : List LocalTemplate) (v : Bool) (s : σ)
    (o : Option (List JVal)) (tr : List Request) (s1 : σ)
    (hlist : listEmailTemplates c p s = (.ok o, tr, s1)) :
    EmailTemplatesApi.syncEmailTemplates c p locals true v s =
      (.ok (locals.map (fun l =>
        let key := makeKey l.templateType l.languageTag
        let existing := if o.isSome then idxGetJ (buildIndex (o.getD [])) key else .null
        let action :=
          if o.isSome then (if existing.truthy then "update" else "create") else "upsert"
        ⟨action, key, l, jor existing .null, true, none⟩)), tr, s1) := by
  unfold EmailTemplatesApi.syncEmailTemplates
  rw [hlist]
  rfl

/-- A gateway stub whose listing succeeds with the given array; writes
reply with an empty object (unused under dry-run). -/
def arrayListClient (rts : List JVal) : Client Unit :=
  ⟨fun req s =>
    if req.verb = Verb.GET then (.ok (.obj [("data", .arr rts)]), s)
    else (.ok (.obj []), s)⟩

/-- A gateway stub that reports status 404 for every call: the listing is
unsupported. -/
def unsupportedListClient : Client Unit :=
  ⟨fun _ s => (.err (.obj [("status", .num 404)]), s)⟩

/-- C1: when the listing is authoritative (the gateway returns an array
`rts`), every computed action is update exactly when the remote index
built from `rts` contains an entry at the local key and create exactly
when it does not; when the listing is unsupported (404), every action is
upsert. Stated over the dry-run results, which carry the actions the sync
computes for all templates. -/
theorem claim1_partition (rts : List JVal) (locals : List LocalTemplate) (p : String) :
    (∃ rs, (EmailTemplatesApi.syncEmailTemplates (arrayListClient rts) p locals true false ()).1
        = .ok rs
      ∧ rs.map (fun r => r.localT) = locals
      ∧ ∀ r ∈ rs,
          r.key = makeKey r.localT.templateType r.localT.languageTag
          ∧ (r.action = "update" ↔ ∃ q ∈ buildIndex rts, q.1 = r.key)
          ∧ (r.action = "create" ↔ ¬ ∃ q ∈ buildIndex rts, q.1 = r.key))
    ∧ (∃ rs, (EmailTemplatesApi.syncEmailTemplates unsupportedListClient p locals true false ()).1
        = .ok rs
      ∧ rs.map (fun r => r.localT) = locals
      ∧ ∀ r ∈ rs, r.action = "upsert") := by
  constructor
  · have hlist : listEmailTemplates (arrayListClient rts) p () =
        (.ok (some rts), [listRequest p], ()) := rfl
    have hs := namedSync_dry (arrayListClient rts) p locals false () (some rts)
      [listRequest p] () hlist
    refine ⟨_, by rw [hs], map_map_id _ _ (fun l => rfl) locals, ?_⟩
    intro r hr
    rcases List.mem_map.mp hr with ⟨l, hl, hlr⟩
    subst hlr
    have hiff : (idxGetJ (buildIndex rts) (makeKey l.templateType l.languageTag)).truthy = true
        ↔ ∃ q ∈ buildIndex rts, q.1 = makeKey l.templateType l.languageTag := by
      rw [idxGetJ_truthy_iff _ _ (buildIndex_values rts)]
      exact idxGet_isSome_iff_exists _ _
    refine ⟨rfl, ?_, ?_⟩
    · show ((if (idxGetJ (buildIndex rts) (makeKey l.templateType l.languageTag)).truthy = true
          then "update" else "create") = "update") ↔ _
      by_cases htr :
          (idxGetJ (buildIndex rts) (makeKey l.templateType l.languageTag)).truthy = true
      · rw [if_pos htr]
        exact ⟨fun _ => hiff.mp htr, fun _ => rfl⟩
      · rw [if_neg htr]
        constructor
        · intro h
          exact absurd h (by decide)
        · intro h
          exact absurd (hiff.mpr h) htr
    · show ((if (idxGetJ (buildIndex rts) (makeKey l.templateType l.languageTag)).truthy = true
          then "update" else "create") = "create") ↔ ¬ _
      by_cases htr :
          (idxGetJ (buildIndex rts) (makeKey l.templateType l.languageTag)).truthy = true
      · rw [if_pos htr]
        constructor
        · intro h
          exact absurd h (by decide)
        · intro h
          exact absurd (hiff.mp htr) h
      · rw [if_neg htr]
        constructor
        · intro _ h
          exact absurd (hiff.mpr h) htr
        · intro _
          rfl
  · have hlist : listEmailTemplates unsupportedListClient p () =
        (.ok none, [listRequest p], ()) := rfl
    have hs := namedSync_dry unsupportedListClient p locals false () none
      [listRequest p] () hlist
    refine ⟨_, by rw [hs], map_map_id _ _ (fun l => rfl) locals, ?_⟩
    intro r hr
    rcases List.mem_map.mp hr with ⟨l, hl, hlr⟩
    subst hlr
    rfl

/-- Witness for C1 at a concrete listing and local set. -/
theorem claim1_partition_witness :
    (∃ rs, (EmailTemplatesApi.syncEmailTemplates
          (arrayListClient [mkRemote (.str "1") (.str "SignIn") (.str "en") .null])
          "email-templates" [⟨"SignIn", "en", .null⟩, ⟨"SignIn", "zh-CN", .null⟩]
          true false ()).1 = .ok rs
      ∧ rs.map (fun r => r.localT) = [⟨"SignIn", "en", .null⟩, ⟨"SignIn", "zh-CN", .null⟩]
      ∧ ∀ r ∈ rs,
          r.key = makeKey r.localT.templateType r.localT.languageTag
          ∧ (r.action = "update"
              ↔ ∃ q ∈ buildIndex [mkRemote (.str "1") (.str "SignIn") (.str "en") .null],
                  q.1 = r.key)
          ∧ (r.action = "create"
              ↔ ¬ ∃ q ∈ buildIndex [mkRemote (.str "1") (.str "SignIn") (.str "en") .null],
                  q.1 = r.key))
    ∧ (∃ rs, (EmailTemplatesApi.syncEmailTemplates unsupportedListClient
          "email-templates" [⟨"SignIn", "en", .null⟩, ⟨"SignIn", "zh-CN", .null⟩]
          true false ()).1 = .ok rs
      ∧ rs.map (fun r => r.localT) = [⟨"SignIn", "en", .null⟩, ⟨"SignIn", "zh-CN", .null⟩]
      ∧ ∀ r ∈ rs, r.action = "upsert") :=
  claim1_partition [mkRemote (.str "1") (.str "SignIn") (.str "en") .null]
    [⟨"SignIn", "en", .null⟩, ⟨"SignIn", "zh-CN", .null⟩] "email-templates"

theorem idxGet_eq_some_exists (m : List (String × JVal)) (k : String) (v : JVal)
    (h : idxGet m k = some v) : ∃ q ∈ m, q.1 = k ∧ q.2 = v := by
  unfold idxGet at h
  rcases Option.map_eq_some'.mp h with ⟨q, hq, hqv⟩
  exact ⟨q, List.mem_of_find?_eq_some hq, by simpa using List.find?_some hq, hqv⟩

theorem namedSync_dry_trace {σ : Type} (c : Client σ) (p : String)
    (locals : List LocalTemplate) (v : Bool) (s : σ) :
    (EmailTemplatesApi.syncEmailTemplates c p locals true v s).2.1 = [listRequest p]
    ∧ (EmailTemplatesApi.syncEmailTemplates c p locals true v s).2.2
        = (c.call (listRequest p) s).2 := by
  rcases h : c.call (listRequest p) s with ⟨cr, s1⟩
  cases cr with
  | ok response =>
    by_cases hd : ((response.get "data").truthy && (response.get "data").isArr) = true
    · simp only [EmailTemplatesApi.syncEmailTemplates, listEmailTemplates, h, if_pos hd]
      exact ⟨rfl, rfl⟩
    · simp only [EmailTemplatesApi.syncEmailTemplates, listEmailTemplates, h, if_neg hd]
      exact ⟨rfl, rfl⟩
  | err e =>
    by_cases hs2 : ((e.get "status").isNumLit 404 || (e.get "status").isNumLit 405) = true
    · simp only [EmailTemplatesApi.syncEmailTemplates, listEmailTemplates, h, if_pos hs2]
      refine ⟨?_, ?_⟩ <;> first | rfl | trivial
    · simp only [EmailTemplatesApi.syncEmailTemplates, listEmailTemplates, h, if_neg hs2]
      refine ⟨?_, ?_⟩ <;> first | rfl | trivial

/-- C2 (amended): dry-run sync issues no write call against any gateway
(its trace is the single listing `GET`), so a gateway whose reads do not
mutate state is left unchanged; and whenever the listing call does not
raise a hard error, the sync returns one result per local template in
input order, carrying the dry-run marker, no request method, the
reconciliation key, and the matched remote record or null. -/
theorem claim2_dry_run_purity {σ : Type} (c : Client σ) (p : String)
    (locals : List LocalTemplate) (v : Bool) (s : σ)
    (hGET : ∀ r s0, r.verb = Verb.GET → (c.call r s0).2 = s0) :
    (∀ r ∈ (EmailTemplatesApi.syncEmailTemplates c p locals true v s).2.1,
        r.verb = Verb.GET)
    ∧ (EmailTemplatesApi.syncEmailTemplates c p locals true v s).2.2 = s
    ∧ (∀ o tr s1, listEmailTemplates c p s = (.ok o, tr, s1) →
        ∃ rs, (EmailTemplatesApi.syncEmailTemplates c p locals true v s).1 = .ok rs
          ∧ rs.map (fun r => r.localT) = locals
          ∧ ∀ r ∈ rs, r.dryRun = true ∧ r.requestMethod = none
              ∧ r.key = makeKey r.localT.templateType r.localT.languageTag
              ∧ (r.remote = .null
                  ∨ ∃ q ∈ buildIndex (o.getD []), q.1 = r.key ∧ r.remote = q.2)) := by
  obtain ⟨htr, hst⟩ := namedSync_dry_trace c p locals v s
  refine ⟨?_, ?_, ?_⟩
  · intro r hr
    rw [htr] at hr
    rcases List.mem_singleton.mp hr with rfl
    rfl
  · rw [hst]
    exact hGET (listRequest p) s rfl
  · intro o tr s1 hlist
    have hs2 := namedSync_dry c p locals v s o tr s1 hlist
    refine ⟨_, by rw [hs2], map_map_id _ _ (fun l => rfl) locals, ?_⟩
    intro r hr
    rcases List.mem_map.mp hr with ⟨l, hl, hlr⟩
    subst hlr
    refine ⟨rfl, rfl, rfl, ?_⟩
    cases o with
    | none => exact Or.inl rfl
    | some rts =>
      show jor (idxGetJ (buildIndex rts) (makeKey l.templateType l.languageTag)) .null = .null
        ∨ _
      cases hg : idxGet (buildIndex rts) (makeKey l.templateType l.languageTag) with
      | none =>
        left
        show jor (idxGetJ (buildIndex rts) (makeKey l.templateType l.languageTag)) .null = .null
        unfold idxGetJ
        rw [hg]
        rfl
      | some w =>
        rcases idxGet_eq_some_exists _ _ _ hg with ⟨q, hq, hqk, hqv⟩
        right
        refine ⟨q, hq, hqk, ?_⟩
        show jor (idxGetJ (buildIndex rts) (makeKey l.templateType l.languageTag)) .null = q.2
        unfold idxGetJ
        rw [hg]
        have hw : w.truthy = true := by
          rw [← hqv]
          exact buildIndex_values rts q hq
        simp [jor, hw, hqv]

/-- Witness for C2 at a concrete gateway, listing, and local set. -/
theorem claim2_dry_run_purity_witness :
    (∀ r ∈ (EmailTemplatesApi.syncEmailTemplates
        (arrayListClient [mkRemote (.str "1") (.str "SignIn") (.str "en") .null])
        "email-templates" [⟨"SignIn", "en", .null⟩] true false ()).2.1,
        r.verb = Verb.GET)
    ∧ (EmailTemplatesApi.syncEmailTemplates
        (arrayListClient [mkRemote (.str "1") (.str "SignIn") (.str "en") .null])
        "email-templates" [⟨"SignIn", "en", .null⟩] true false ()).2.2 = ()
    ∧ (∀ o tr s1, listEmailTemplates
          (arrayListClient [mkRemote (.str "1") (.str "SignIn") (.str "en") .null])
          "email-templates" () = (.ok o, tr, s1) →
        ∃ rs, (EmailTemplatesApi.syncEmailTemplates
            (arrayListClient [mkRemote (.str "1") (.str "SignIn") (.str "en") .null])
            "email-templates" [⟨"SignIn", "en", .null⟩] true false ()).1 = .ok rs
          ∧ rs.map (fun r => r.localT) = [⟨"SignIn", "en", .null⟩]
          ∧ ∀ r ∈ rs, r.dryRun = true ∧ r.requestMethod = none
              ∧ r.key = makeKey r.localT.templateType r.localT.languageTag
              ∧ (r.remote = .null
                  ∨ ∃ q ∈ buildIndex (o.getD []), q.1 = r.key ∧ r.remote = q.2)) :=
  claim2_dry_run_purity
    (arrayListClient [mkRemote (.str "1") (.str "SignIn") (.str "en") .null])
    "email-templates" [⟨"SignIn", "en", .null⟩] false ()
    (fun r s0 _ => rfl)

/-- A gateway stub whose every call throws with an ambiguous status 500. -/
def erroringListClient : Client Unit :=
  ⟨fun _ s => (.err (.obj [("status", .num 500), ("message", .str "boom")]), s)⟩

/-- C2 counterexample: when the initial listing call throws a hard
(non-404/405) error, dry-run sync throws instead of returning one result
per local template, refuting the unconditional claim. -/
theorem claim2_counterexample :
    (erroringListClient.call (listRequest "email-templates") ()).1
        = .err (.obj [("status", .num 500), ("message", .str "boom")])
    ∧ exceptIsErr (EmailTemplatesApi.syncEmailTemplates erroringListClient
        "email-templates" [⟨"SignIn", "en", .null⟩] true false ()).1 = true :=
  ⟨rfl, rfl⟩

/-- Strategy A request: item-scoped `PUT` with the bare template body. -/
def updReqA (p : String) (id ft : JVal) : Request :=
  ⟨.PUT, "/api/" ++ p ++ "/" ++ jStr id, ft⟩

/-- Strategy B request: `PUT` of a one-element `templates` batch on the
base path. -/
def updReqB (p : String) (ft : JVal) : Request :=
  ⟨.PUT, "/api/" ++ p, .obj [("templates", .arr [ft])]⟩

/-- Strategy C request: item-scoped `PATCH` with the bare template body. -/
def updReqC (p : String) (id ft : JVal) : Request :=
  ⟨.PATCH, "/api/" ++ p ++ "/" ++ jStr id, ft⟩

theorem updateStageC_spec {σ : Type} (c : Client σ) (p : String) (id ft : JVal)
    (errs : List Part001.ErrorInfo) (tr : List Request) (s : σ) :
    (Part001.updateStageC c ("/api/" ++ p) id ft errs tr s).2.1
        = tr ++ [updReqC p id ft]
    ∧ ((Part001.updateStageC c ("/api/" ++ p) id ft errs tr s).1.ok = true →
        (Part001.updateStageC c ("/api/" ++ p) id ft errs tr s).1.method = "PATCH") := by
  rcases h : c.call ⟨.PATCH, "/api/" ++ p ++ "/" ++ jStr id, ft⟩ s with ⟨cr, s1⟩
  cases cr with
  | ok response =>
    simp only [Part001.updateStageC, updReqC, h]
    split
    · refine ⟨?_, fun _ => ?_⟩ <;> first | rfl | trivial
    · refine ⟨?_, fun hok => ?_⟩
      · first | rfl | trivial
      · exact absurd hok (by simp [Part001.exhausted])
  | err e =>
    simp only [Part001.updateStageC, updReqC, h]
    refine ⟨?_, fun hok => ?_⟩
    · first | rfl | trivial
    · exact absurd hok (by simp [Part001.exhausted])

theorem updateStageB_spec {σ : Type} (c : Client σ) (p : String) (id ft : JVal)
    (errs : List Part001.ErrorInfo) (tr : List Request) (s : σ) :
    ((Part001.updateStageB c ("/api/" ++ p) id ft errs tr s).2.1 = tr ++ [updReqB p ft]
      ∧ (Part001.updateStageB c ("/api/" ++ p) id ft errs tr s).1.ok = true
      ∧ (Part001.updateStageB c ("/api/" ++ p) id ft errs tr s).1.method = "PUT (batch)")
    ∨ (∃ errs2 s1, Part001.updateStageB c ("/api/" ++ p) id ft errs tr s
        = Part001.updateStageC c ("/api/" ++ p) id ft errs2 (tr ++ [updReqB p ft]) s1) := by
  rcases h : c.call ⟨.PUT, "/api/" ++ p, .obj [("templates", .arr [ft])]⟩ s with ⟨cr, s1⟩
  cases cr with
  | ok response =>
    simp only [Part001.updateStageB, updReqB, h]
    split
    · split
      · left
        refine ⟨?_, ?_, ?_⟩ <;> first | rfl | trivial
      · right
        exact ⟨errs, s1, rfl⟩
    · right
      exact ⟨errs, s1, rfl⟩
  | err e =>
    simp only [Part001.updateStageB, updReqB, h]
    right
    exact ⟨_, s1, rfl⟩

/-- C3 (corrected): the update-by-id operation attempts, in this order,
an item-scoped `PUT` of the bare template, a one-element-batch `PUT` on
the base path without the id in the body, and an item-scoped `PATCH`; it
accepts the first strategy yielding a recognizable success shape and
reports that strategy's method. -/
theorem claim3_strategy_order {σ : Type} (c : Client σ) (p : String) (id ft : JVal)
    (s : σ) :
    ((Part001.tryUpdateById c p id ft s).2.1 = [updReqA p id ft]
      ∨ (Part001.tryUpdateById c p id ft s).2.1 = [updReqA p id ft, updReqB p ft]
      ∨ (Part001.tryUpdateById c p id ft s).2.1
          = [updReqA p id ft, updReqB p ft, updReqC p id ft])
    ∧ ((Part001.tryUpdateById c p id ft s).1.ok = true →
        ((Part001.tryUpdateById c p id ft s).2.1 = [updReqA p id ft]
            ∧ (Part001.tryUpdateById c p id ft s).1.method = "PUT")
        ∨ ((Part001.tryUpdateById c p id ft s).2.1 = [updReqA p id ft, updReqB p ft]
            ∧ (Part001.tryUpdateById c p id ft s).1.method = "PUT (batch)")
        ∨ ((Part001.tryUpdateById c p id ft s).2.1
              = [updReqA p id ft, updReqB p ft, updReqC p id ft]
            ∧ (Part001.tryUpdateById c p id ft s).1.method = "PATCH"))
    ∧ (∀ resp s1, c.call (updReqA p id ft) s = (.ok resp, s1) →
        ((jor (resp.get "data") resp).truthy
          && (((jor (resp.get "data") resp).get "id").truthy
              || ((jor (resp.get "data") resp).get "templateType").truthy)) = true →
        Part001.tryUpdateById c p id ft s
          = ({ ok := true, method := "PUT", response := jor (resp.get "data") resp,
               rawError := .undefined, errors := [] }, [updReqA p id ft], s1)) := by
  rcases h : c.call ⟨.PUT, "/api/" ++ p ++ "/" ++ jStr id, ft⟩ s with ⟨cr, s1⟩
  cases cr with
  | ok response =>
    simp only [Part001.tryUpdateById, updReqA, updReqB, updReqC, h]
    split
    · refine ⟨Or.inl rfl, fun _ => Or.inl ⟨rfl, rfl⟩, ?_⟩
      intro resp2 s2 hcall hrec2
      have heq := hcall
      rw [Prod.mk.injEq] at heq
      obtain ⟨h3, h4⟩ := heq
      injection h3 with h5
      subst h5
      subst h4
      rfl
    · rename_i hrec
      rcases updateStageB_spec c p id ft []
          [⟨.PUT, "/api/" ++ p ++ "/" ++ jStr id, ft⟩] s1 with
        ⟨hb1, hb2, hb3⟩ | ⟨errs2, s2, hb⟩
      · rw [updReqB] at hb1
        refine ⟨Or.inr (Or.inl (by rw [hb1]; rfl)),
          fun _ => Or.inr (Or.inl ⟨by rw [hb1]; rfl, hb3⟩), ?_⟩
        intro resp2 s2 hcall hrec2
        have heq := hcall
        rw [Prod.mk.injEq] at heq
        obtain ⟨h3, h4⟩ := heq
        injection h3 with h5
        subst h5
        exact absurd hrec2 hrec
      · rw [hb]
        obtain ⟨hc1, hc2⟩ := updateStageC_spec c p id ft errs2
          ([⟨.PUT, "/api/" ++ p ++ "/" ++ jStr id, ft⟩] ++ [updReqB p ft]) s2
        refine ⟨Or.inr (Or.inr (by rw [hc1]; rfl)),
          fun hok => Or.inr (Or.inr ⟨by rw [hc1]; rfl, hc2 hok⟩), ?_⟩
        intro resp2 s2 hcall hrec2
        have heq := hcall
        rw [Prod.mk.injEq] at heq
        obtain ⟨h3, h4⟩ := heq
        injection h3 with h5
        subst h5
        exact absurd hrec2 hrec
  | err e =>
    simp only [Part001.tryUpdateById, updReqA, updReqB, updReqC, h]
    split
    · rcases updateStageB_spec c p id ft
          [Part001.mkErrorInfo "PUT" ("/api/" ++ p ++ "/" ++ jStr id) e .undefined]
          [⟨.PUT, "/api/" ++ p ++ "/" ++ jStr id, ft⟩] s1 with
        ⟨hb1, hb2, hb3⟩ | ⟨errs2, s2, hb⟩
      · rw [updReqB] at hb1
        refine ⟨Or.inr (Or.inl (by rw [hb1]; rfl)),
          fun _ => Or.inr (Or.inl ⟨by rw [hb1]; rfl, hb3⟩), ?_⟩
        intro resp2 s2 hcall hrec2
        exact absurd hcall (by simp)
      · rw [hb]
        obtain ⟨hc1, hc2⟩ := updateStageC_spec c p id ft errs2
          ([⟨.PUT, "/api/" ++ p ++ "/" ++ jStr id, ft⟩] ++ [updReqB p ft]) s2
        refine ⟨Or.inr (Or.inr (by rw [hc1]; rfl)),
          fun hok => Or.inr (Or.inr ⟨by rw [hc1]; rfl, hc2 hok⟩), ?_⟩
        intro resp2 s2 hcall hrec2
        exact absurd hcall (by simp)
    · refine ⟨Or.inl rfl, fun hok => ?_, ?_⟩
      · exact absurd hok (by simp)
      · intro resp2 s2 hcall hrec2
        exact absurd hcall (by simp)

/-- A gateway stub that accepts every request with a recognizable body. -/
def allOkClient : Client Unit :=
  ⟨fun _ s => (.ok (.obj [("data", .obj [("id", .str "X")])]), s)⟩

/-- C3 counterexample: against a gateway accepting every request, the
first and only request issued by the update-by-id operation is the
item-scoped `PUT /api/email-templates/T1` whose body carries no id; the
claimed first strategy (a batch write to the base path with the id
embedded in the body) is not what is attempted first. -/
theorem claim3_counterexample :
    (Part001.tryUpdateById allOkClient "email-templates" (.str "T1")
        (fullTemplateOf ⟨"SignIn", "en", .null⟩) ()).2.1
      = [⟨Verb.PUT, "/api/email-templates/T1", fullTemplateOf ⟨"SignIn", "en", .null⟩⟩]
    ∧ (fullTemplateOf ⟨"SignIn", "en", .null⟩).get "id" = .undefined
    ∧ "/api/email-templates/T1" ≠ "/api/email-templates" := by
  refine ⟨rfl, rfl, by decide⟩

/-- Witness for C3: the first strategy succeeds against the accepting
stub, the operation stops after one request and reports method PUT. -/
theorem claim3_strategy_order_witness :
    Part001.tryUpdateById allOkClient "email-templates" (.str "T1")
        (fullTemplateOf ⟨"SignIn", "en", .null⟩) ()
      = ({ ok := true, method := "PUT",
           response := jor ((JVal.obj [("data", .obj [("id", .str "X")])]).get "data")
             (.obj [("data", .obj [("id", .str "X")])]),
           rawError := .undefined, errors := [] },
         [updReqA "email-templates" (.str "T1") (fullTemplateOf ⟨"SignIn", "en", .null⟩)],
         ()) :=
  (claim3_strategy_order allOkClient "email-templates" (.str "T1")
      (fullTemplateOf ⟨"SignIn", "en", .null⟩) ()).2.2
    (.obj [("data", .obj [("id", .str "X")])]) () rfl rfl

/-- C4 (corrected): only the first strategy of the fallback chain
distinguishes failure statuses. A thrown status other than 404 or 405 on
strategy A terminates the whole operation at once with that error,
carrying its method, URL, status and body in the recorded diagnostic;
when strategy A failed with 404 or 405 and strategy B throws, strategy C
is attempted whatever status strategy B reported; and when strategy C
then throws as well, the operation fails with the aggregated error whose
diagnostics list every attempt with its method, URL, status and body. -/
theorem claim4_fallthrough {σ : Type} (c : Client σ) (p : String) (id ft : JVal)
    (s : σ) (e : JVal) (s1 : σ)
    (hA : c.call (updReqA p id ft) s = (.err e, s1)) :
    (((e.get "status").isNumLit 404 || (e.get "status").isNumLit 405) = false →
      Part001.tryUpdateById c p id ft s
        = ({ ok := false, method := "PUT", response := .undefined, rawError := e,
             errors := [Part001.mkErrorInfo "PUT" ("/api/" ++ p ++ "/" ++ jStr id) e .undefined] },
           [updReqA p id ft], s1))
    ∧ (((e.get "status").isNumLit 404 || (e.get "status").isNumLit 405) = true →
      ∀ e2 s2, c.call (updReqB p ft) s1 = (.err e2, s2) →
        (Part001.tryUpdateById c p id ft s).2.1
          = [updReqA p id ft, updReqB p ft, updReqC p id ft])
    ∧ (((e.get "status").isNumLit 404 || (e.get "status").isNumLit 405) = true →
      ∀ e2 s2, c.call (updReqB p ft) s1 = (.err e2, s2) →
      ∀ e3 s3, c.call (updReqC p id ft) s2 = (.err e3, s3) →
        Part001.tryUpdateById c p id ft s
          = (Part001.exhausted
              [Part001.mkErrorInfo "PUT" ("/api/" ++ p ++ "/" ++ jStr id) e .undefined,
               Part001.mkErrorInfo "PUT (batch)" ("/api/" ++ p) e2 .undefined,
               Part001.mkErrorInfo "PATCH" ("/api/" ++ p ++ "/" ++ jStr id) e3 .undefined],
             [updReqA p id ft, updReqB p ft, updReqC p id ft], s3)
          ∧ (Part001.tryUpdateById c p id ft s).1.ok = false
          ∧ (Part001.tryUpdateById c p id ft s).1.errors
            = [Part001.mkErrorInfo "PUT" ("/api/" ++ p ++ "/" ++ jStr id) e .undefined,
               Part001.mkErrorInfo "PUT (batch)" ("/api/" ++ p) e2 .undefined,
               Part001.mkErrorInfo "PATCH" ("/api/" ++ p ++ "/" ++ jStr id) e3 .undefined]) := by
  rw [updReqA] at hA
  refine ⟨?_, ?_, ?_⟩
  · intro hst
    simp only [Part001.tryUpdateById, updReqA, hA, hst, Bool.false_eq_true, if_false]
  · intro hst e2 s2 hB
    rw [updReqB] at hB
    simp only [Part001.tryUpdateById, updReqA, hA, hst, if_true]
    simp only [Part001.updateStageB, hB]
    obtain ⟨hc1, hc2⟩ := updateStageC_spec c p id ft
      ([Part001.mkErrorInfo "PUT" ("/api/" ++ p ++ "/" ++ jStr id) e .undefined]
        ++ [Part001.mkErrorInfo "PUT (batch)" ("/api/" ++ p) e2 .undefined])
      ([⟨.PUT, "/api/" ++ p ++ "/" ++ jStr id, ft⟩]
        ++ [⟨.PUT, "/api/" ++ p, .obj [("templates", .arr [ft])]⟩]) s2
    rw [hc1]
    rfl
  · intro hst e2 s2 hB e3 s3 hC
    rw [updReqB] at hB
    rw [updReqC] at hC
    have hout : Part001.tryUpdateById c p id ft s
        = (Part001.exhausted
            [Part001.mkErrorInfo "PUT" ("/api/" ++ p ++ "/" ++ jStr id) e .undefined,
             Part001.mkErrorInfo "PUT (batch)" ("/api/" ++ p) e2 .undefined,
             Part001.mkErrorInfo "PATCH" ("/api/" ++ p ++ "/" ++ jStr id) e3 .undefined],
           [updReqA p id ft, updReqB p ft, updReqC p id ft], s3) := by
      simp only [Part001.tryUpdateById, updReqA, updReqB, updReqC, hA, hst, if_true]
      simp only [Part001.updateStageB, hB]
      simp only [Part001.updateStageC, hC]
      rfl
    refine ⟨hout, ?_, ?_⟩
    · rw [hout]
      rfl
    · rw [hout]
      rfl

/-- A gateway stub that reports 404 for the item-scoped PUT, 500 for the
base-path batch PUT, and accepts the PATCH. -/
def cexC4client : Client Unit :=
  ⟨fun req s =>
    match req.verb with
    | .PATCH => (.ok (.obj [("data", .obj [("id", .str "X")])]), s)
    | .PUT =>
      if req.url = "/api/email-templates/T1" then (.err (.obj [("status", .num 404)]), s)
      else (.err (.obj [("status", .num 500)]), s)
    | .GET => (.err (.obj [("status", .num 404)]), s)⟩

/-- C4 counterexample: the second strategy fails with the ambiguous
status 500, yet the operation is not terminated with that error: the
third strategy is attempted and the operation succeeds via PATCH. -/
theorem claim4_counterexample :
    (cexC4client.call (updReqB "email-templates" (fullTemplateOf ⟨"SignIn", "en", .null⟩)) ()).1
      = .err (.obj [("status", .num 500)])
    ∧ (Part001.tryUpdateById cexC4client "email-templates" (.str "T1")
        (fullTemplateOf ⟨"SignIn", "en", .null⟩) ()).1.ok = true
    ∧ (Part001.tryUpdateById cexC4client "email-templates" (.str "T1")
        (fullTemplateOf ⟨"SignIn", "en", .null⟩) ()).1.method = "PATCH"
    ∧ (Part001.tryUpdateById cexC4client "email-templates" (.str "T1")
        (fullTemplateOf ⟨"SignIn", "en", .null⟩) ()).2.1
      = [updReqA "email-templates" (.str "T1") (fullTemplateOf ⟨"SignIn", "en", .null⟩),
         updReqB "email-templates" (fullTemplateOf ⟨"SignIn", "en", .null⟩),
         updReqC "email-templates" (.str "T1") (fullTemplateOf ⟨"SignIn", "en", .null⟩)] :=
  ⟨rfl, rfl, rfl, rfl⟩

/-- A gateway stub on which every update strategy throws: 404 for the
item-scoped PUT, 500 for the batch PUT and for the PATCH. -/
def exhaustClient : Client Unit :=
  ⟨fun req s =>
    match req.verb with
    | .PATCH => (.err (.obj [("status", .num 500)]), s)
    | .PUT =>
      if req.url = "/api/email-templates/T1" then (.err (.obj [("status", .num 404)]), s)
      else (.err (.obj [("status", .num 500)]), s)
    | .GET => (.err (.obj [("status", .num 404)]), s)⟩

/-- Witness for C4: a strategy-A failure with status 500 stops the whole
operation immediately carrying the error, and when every strategy throws
the operation fails with the aggregated error that lists all three
attempts. -/
theorem claim4_fallthrough_witness :
    (erroringListClient.call
        (updReqA "email-templates" (.str "T1") (fullTemplateOf ⟨"SignIn", "en", .null⟩)) ()
      = (.err (.obj [("status", .num 500), ("message", .str "boom")]), ())
    ∧ (((JVal.obj [("status", .num 500), ("message", .str "boom")]).get "status").isNumLit 404
        || ((JVal.obj [("status", .num 500), ("message", .str "boom")]).get "status").isNumLit 405)
      = false
    ∧ Part001.tryUpdateById erroringListClient "email-templates" (.str "T1")
        (fullTemplateOf ⟨"SignIn", "en", .null⟩) ()
      = ({ ok := false, method := "PUT", response := .undefined,
           rawError := .obj [("status", .num 500), ("message", .str "boom")],
           errors := [Part001.mkErrorInfo "PUT"
             ("/api/" ++ "email-templates" ++ "/" ++ jStr (.str "T1"))
             (.obj [("status", .num 500), ("message", .str "boom")]) .undefined] },
         [updReqA "email-templates" (.str "T1") (fullTemplateOf ⟨"SignIn", "en", .null⟩)], ()))
    ∧ (exhaustClient.call
        (updReqA "email-templates" (.str "T1") (fullTemplateOf ⟨"SignIn", "en", .null⟩)) ()
      = (.err (.obj [("status", .num 404)]), ())
    ∧ (((JVal.obj [("status", .num 404)]).get "status").isNumLit 404
        || ((JVal.obj [("status", .num 404)]).get "status").isNumLit 405) = true
    ∧ exhaustClient.call
        (updReqB "email-templates" (fullTemplateOf ⟨"SignIn", "en", .null⟩)) ()
      = (.err (.obj [("status", .num 500)]), ())
    ∧ exhaustClient.call
        (updReqC "email-templates" (.str "T1") (fullTemplateOf ⟨"SignIn", "en", .null⟩)) ()
      = (.err (.obj [("status", .num 500)]), ())
    ∧ Part001.tryUpdateById exhaustClient "email-templates" (.str "T1")
        (fullTemplateOf ⟨"SignIn", "en", .null⟩) ()
      = (Part001.exhausted
          [Part001.mkErrorInfo "PUT"
            ("/api/" ++ "email-templates" ++ "/" ++ jStr (.str "T1"))
            (.obj [("status", .num 404)]) .undefined,
           Part001.mkErrorInfo "PUT (batch)" ("/api/" ++ "email-templates")
            (.obj [("status", .num 500)]) .undefined,
           Part001.mkErrorInfo "PATCH"
            ("/api/" ++ "email-templates" ++ "/" ++ jStr (.str "T1"))
            (.obj [("status", .num 500)]) .undefined],
         [updReqA "email-templates" (.str "T1") (fullTemplateOf ⟨"SignIn", "en", .null⟩),
          updReqB "email-templates" (fullTemplateOf ⟨"SignIn", "en", .null⟩),
          updReqC "email-templates" (.str "T1") (fullTemplateOf ⟨"SignIn", "en", .null⟩)], ())
    ∧ (Part001.tryUpdateById exhaustClient "email-templates" (.str "T1")
        (fullTemplateOf ⟨"SignIn", "en", .null⟩) ()).1.ok = false) :=
  ⟨⟨rfl, rfl,
      (claim4_fallthrough erroringListClient "email-templates" (.str "T1")
        (fullTemplateOf ⟨"SignIn", "en", .null⟩) ()
        (.obj [("status", .num 500), ("message", .str "boom")]) () rfl).1 rfl⟩,
    rfl, rfl, rfl, rfl,
    ((claim4_fallthrough exhaustClient "email-templates" (.str "T1")
        (fullTemplateOf ⟨"SignIn", "en", .null⟩) ()
        (.obj [("status", .num 404)]) () rfl).2.2 rfl
      (.obj [("status", .num 500)]) () rfl
      (.obj [("status", .num 500)]) () rfl).1,
    ((claim4_fallthrough exhaustClient "email-templates" (.str "T1")
        (fullTemplateOf ⟨"SignIn", "en", .null⟩) ()
        (.obj [("status", .num 404)]) () rfl).2.2 rfl
      (.obj [("status", .num 500)]) () rfl
      (.obj [("status", .num 500)]) () rfl).2.1⟩

theorem processLocal_error_shape {σ : Type} (c : Client σ) (p : String) (v : Bool)
    (hasIdx : Bool) (idx : List (String × JVal)) (l : LocalTemplate) (s : σ)
    (e : Part001.SyncItemError) (tr : List Request) (s2 : σ)
    (h : Part001.processLocal c p false v hasIdx idx l s = (.error e, tr, s2)) :
    e.templateType = l.templateType ∧ e.languageTag = l.languageTag
    ∧ ((∃ a, Part001.tryUpdateById c p
          ((if hasIdx then idxGetJ idx (makeKey l.templateType l.languageTag)
            else .null).get "id")
          (fullTemplateOf l) s = (a, tr, s2)
        ∧ a.ok = false ∧ e.attemptErrors = a.errors ∧ e.errMsg = Part001.attemptErrMsg a)
      ∨ (∃ a, Part001.tryCreate c p (fullTemplateOf l) s = (a, tr, s2)
        ∧ a.ok = false ∧ e.attemptErrors = a.errors ∧ e.errMsg = Part001.attemptErrMsg a)) := by
  unfold Part001.processLocal at h
  rw [if_neg Bool.false_ne_true] at h
  by_cases hex : ((if hasIdx = true then idxGetJ idx (makeKey l.templateType l.languageTag)
      else JVal.null).get "id").truthy = true
  · rw [if_pos hex] at h
    rcases hu : Part001.tryUpdateById c p
        ((if hasIdx = true then idxGetJ idx (makeKey l.templateType l.languageTag)
          else JVal.null).get "id") (fullTemplateOf l) s with ⟨a, tr2, s3⟩
    rw [hu] at h
    dsimp only at h
    by_cases hok : a.ok = true
    · rw [if_pos hok] at h
      exact absurd h (by simp)
    · rw [if_neg hok] at h
      rw [Prod.mk.injEq, Prod.mk.injEq, Except.error.injEq] at h
      obtain ⟨h1, h2, h3⟩ := h
      subst h1
      subst h2
      subst h3
      exact ⟨rfl, rfl, Or.inl ⟨a, rfl, Bool.of_not_eq_true hok, rfl, rfl⟩⟩
  · rw [if_neg hex] at h
    rcases hu : Part001.tryCreate c p (fullTemplateOf l) s with ⟨a, tr2, s3⟩
    rw [hu] at h
    dsimp only at h
    by_cases hok : a.ok = true
    · rw [if_pos hok] at h
      exact absurd h (by simp)
    · rw [if_neg hok] at h
      rw [Prod.mk.injEq, Prod.mk.injEq, Except.error.injEq] at h
      obtain ⟨h1, h2, h3⟩ := h
      subst h1
      subst h2
      subst h3
      exact ⟨rfl, rfl, Or.inr ⟨a, rfl, Bool.of_not_eq_true hok, rfl, rfl⟩⟩

theorem syncLocals_error_decompose {σ : Type} (c : Client σ) (p : String)
    (v : Bool) (hasIdx : Bool) :
    ∀ (ls : List LocalTemplate) (idx : List (String × JVal)) (s : σ),
      exceptIsErr (Part001.syncLocals c p false v hasIdx ls idx s).1 = true →
      ∃ e done failing rest rs trDone trFail idxMid sMid sEnd,
        ls = done ++ failing :: rest
        ∧ Part001.syncLocals c p false v hasIdx done idx s = (.ok rs, trDone, idxMid, sMid)
        ∧ Part001.processLocal c p false v hasIdx idxMid failing sMid
            = (.error e, trFail, sEnd)
        ∧ Part001.syncLocals c p false v hasIdx ls idx s
            = (.error e, trDone ++ trFail, idxMid, sEnd) := by
  intro ls
  induction ls with
  | nil =>
    intro idx s h
    exact absurd h (by simp [Part001.syncLocals, exceptIsErr])
  | cons l ls ih =>
    intro idx s h
    rcases hp : Part001.processLocal c p false v hasIdx idx l s with ⟨res, tr, sA⟩
    cases res with
    | error e =>
      refine ⟨e, [], l, ls, [], [], tr, idx, s, sA, rfl, rfl, hp, ?_⟩
      simp only [Part001.syncLocals, hp]
      rfl
    | ok pr =>
      rcases pr with ⟨r, idx1⟩
      have h2 : exceptIsErr (Part001.syncLocals c p false v hasIdx ls idx1 sA).1 = true := by
        rcases hr : Part001.syncLocals c p false v hasIdx ls idx1 sA with ⟨res2, tr2, idx2, sB⟩
        cases res2 with
        | ok rs2 =>
          simp only [Part001.syncLocals, hp, hr] at h
          exact absurd h (by simp [exceptIsErr, Except.map])
        | error e2 => rfl
      obtain ⟨e, done, failing, rest, rs, trD, trF, idxM, sM, sE, hsplit, hdone, hstep, htot⟩ :=
        ih idx1 sA h2
      refine ⟨e, l :: done, failing, rest, r :: rs, tr ++ trD, trF, idxM, sM, sE,
        by rw [List.cons_append, hsplit], ?_, hstep, ?_⟩
      · simp only [Part001.syncLocals, hp, hdone]
        rfl
      · simp only [Part001.syncLocals, hp, htot]
        rw [List.append_assoc]
        rfl

/-- C5: in apply mode, the first failing item makes the per-item sync
throw at once: the input splits into processed items, the failing item
and untouched remaining items; the request trace consists of the listing
call, the successful items requests and the failing items requests only
(nothing is issued for the remaining items, and nothing already applied
is revisited or rolled back); the thrown error identifies the failing
item by template type and language tag and carries the diagnostics of
every attempted strategy of its failed write attempt. -/
theorem claim5_abort_on_first_failure {σ : Type} (c : Client σ) (p : String)
    (v : Bool) (locals : List LocalTemplate) (s : σ)
    (o : Option (List JVal)) (trL : List Request) (s1 : σ)
    (hlist : listEmailTemplates c p s = (.ok o, trL, s1))
    (hfail : exceptIsErr (Part001.syncLocals c p false v o.isSome locals
        (buildIndex (o.getD [])) s1).1 = true) :
    ∃ e done failing rest rs trDone trFail idxMid sMid sEnd,
      locals = done ++ failing :: rest
      ∧ Part001.syncLocals c p false v o.isSome done (buildIndex (o.getD [])) s1
          = (.ok rs, trDone, idxMid, sMid)
      ∧ Part001.processLocal c p false v o.isSome idxMid failing sMid
          = (.error e, trFail, sEnd)
      ∧ Part001.syncEmailTemplates c p locals false v s
          = (.error (.itemFailed e), trL ++ (trDone ++ trFail), sEnd)
      ∧ e.templateType = failing.templateType
      ∧ e.languageTag = failing.languageTag
      ∧ ((∃ a, Part001.tryUpdateById c p
            ((if o.isSome then idxGetJ idxMid
                (makeKey failing.templateType failing.languageTag)
              else .null).get "id")
            (fullTemplateOf failing) sMid = (a, trFail, sEnd)
          ∧ a.ok = false ∧ e.attemptErrors = a.errors
          ∧ e.errMsg = Part001.attemptErrMsg a)
        ∨ (∃ a, Part001.tryCreate c p (fullTemplateOf failing) sMid = (a, trFail, sEnd)
          ∧ a.ok = false ∧ e.attemptErrors = a.errors
          ∧ e.errMsg = Part001.attemptErrMsg a)) := by
  obtain ⟨e, done, failing, rest, rs, trD, trF, idxM, sM, sE, hsplit, hdone, hstep, htot⟩ :=
    syncLocals_error_decompose c p v o.isSome locals (buildIndex (o.getD [])) s1 hfail
  obtain ⟨hid1, hid2, hshape⟩ :=
    processLocal_error_shape c p v o.isSome idxM failing sM e trF sE hstep
  refine ⟨e, done, failing, rest, rs, trD, trF, idxM, sM, sE, hsplit, hdone, hstep, ?_,
    hid1, hid2, hshape⟩
  simp only [Part001.syncEmailTemplates, hlist, htot]

/-- A gateway stub whose listing returns one stored remote template and
whose write calls all throw with status 500. -/
def failWriteClient : Client Unit :=
  ⟨fun req s =>
    if req.verb = Verb.GET then
      (.ok (.obj [("data", .arr [mkRemote (.str "1") (.str "SignIn") (.str "en") .null])]), s)
    else (.err (.obj [("status", .num 500), ("message", .str "boom")]), s)⟩

/-- Witness for C5: against a gateway whose listing returns one remote
template and whose writes all fail with status 500, syncing one local
template fails at the first item. -/
theorem claim5_abort_witness :
    listEmailTemplates failWriteClient "email-templates" ()
      = (.ok (some [mkRemote (.str "1") (.str "SignIn") (.str "en") .null]),
         [listRequest "email-templates"], ())
    ∧ exceptIsErr (Part001.syncLocals failWriteClient "email-templates" false false
        (some [mkRemote (.str "1") (.str "SignIn") (.str "en") .null]).isSome
        [⟨"SignIn", "en", .null⟩]
        (buildIndex ((some [mkRemote (.str "1") (.str "SignIn") (.str "en") .null]).getD []))
        ()).1 = true
    ∧ (∃ e done failing rest rs trDone trFail idxMid sMid sEnd,
        ([⟨"SignIn", "en", .null⟩] : List LocalTemplate) = done ++ failing :: rest
        ∧ Part001.syncLocals failWriteClient "email-templates" false false
            (some [mkRemote (.str "1") (.str "SignIn") (.str "en") .null]).isSome done
            (buildIndex ((some [mkRemote (.str "1") (.str "SignIn") (.str "en") .null]).getD []))
            () = (.ok rs, trDone, idxMid, sMid)
        ∧ Part001.processLocal failWriteClient "email-templates" false false
            (some [mkRemote (.str "1") (.str "SignIn") (.str "en") .null]).isSome idxMid
            failing sMid = (.error e, trFail, sEnd)
        ∧ Part001.syncEmailTemplates failWriteClient "email-templates"
            [⟨"SignIn", "en", .null⟩] false false ()
            = (.error (.itemFailed e), [listRequest "email-templates"] ++ (trDone ++ trFail), sEnd)
        ∧ e.templateType = failing.templateType
        ∧ e.languageTag = failing.languageTag
        ∧ ((∃ a, Part001.tryUpdateById failWriteClient "email-templates"
              ((if (some [mkRemote (.str "1") (.str "SignIn") (.str "en") .null]).isSome then
                  idxGetJ idxMid (makeKey failing.templateType failing.languageTag)
                else .null).get "id")
              (fullTemplateOf failing) sMid = (a, trFail, sEnd)
            ∧ a.ok = false ∧ e.attemptErrors = a.errors
            ∧ e.errMsg = Part001.attemptErrMsg a)
          ∨ (∃ a, Part001.tryCreate failWriteClient "email-templates"
                (fullTemplateOf failing) sMid = (a, trFail, sEnd)
            ∧ a.ok = false ∧ e.attemptErrors = a.errors
            ∧ e.errMsg = Part001.attemptErrMsg a))) :=
  ⟨rfl, rfl,
    claim5_abort_on_first_failure failWriteClient "email-templates" false
      [⟨"SignIn", "en", .null⟩] ()
      (some [mkRemote (.str "1") (.str "SignIn") (.str "en") .null])
      [listRequest "email-templates"] () rfl rfl⟩


/-- C6 (corrected): `listEmailTemplates` performs exactly one `GET`; it
returns null when the server reports 404 or 405, and also when the call
succeeds but the response data is not an array; any other thrown error
propagates as a hard error; a successful array listing is returned as the
sequence of remote templates. -/
theorem claim6_listing {σ : Type} (c : Client σ) (p : String) (s : σ) :
    (listEmailTemplates c p s).2.1 = [listRequest p]
    ∧ (∀ e s1, c.call (listRequest p) s = (.err e, s1) →
        ((e.get "status").isNumLit 404 || (e.get "status").isNumLit 405) = true →
        (listEmailTemplates c p s).1 = .ok none)
    ∧ (∀ e s1, c.call (listRequest p) s = (.err e, s1) →
        ((e.get "status").isNumLit 404 || (e.get "status").isNumLit 405) = false →
        exceptIsErr (listEmailTemplates c p s).1 = true)
    ∧ (∀ resp s1, c.call (listRequest p) s = (.ok resp, s1) →
        ((resp.get "data").truthy && (resp.get "data").isArr) = true →
        (listEmailTemplates c p s).1 = .ok (some (resp.get "data").asArr))
    ∧ (∀ resp s1, c.call (listRequest p) s = (.ok resp, s1) →
        ((resp.get "data").truthy && (resp.get "data").isArr) = false →
        (listEmailTemplates c p s).1 = .ok none) := by
  refine ⟨?_, ?_, ?_, ?_, ?_⟩
  · rcases h : c.call (listRequest p) s with ⟨cr, s1⟩
    cases cr with
    | ok response =>
      simp only [listEmailTemplates, listRequest] at h ⊢
      rw [h]
      dsimp only
      split <;> rfl
    | err e =>
      simp only [listEmailTemplates, listRequest] at h ⊢
      rw [h]
      dsimp only
      split <;> rfl
  · intro e s2 hcall hst
    simp only [listEmailTemplates, listRequest] at hcall ⊢
    rw [hcall]
    dsimp only
    rw [if_pos hst]
  · intro e s2 hcall hst
    simp only [listEmailTemplates, listRequest] at hcall ⊢
    rw [hcall]
    dsimp only
    rw [if_neg (by simp [hst])]
    rfl
  · intro resp s2 hcall hd
    simp only [listEmailTemplates, listRequest] at hcall ⊢
    rw [hcall]
    dsimp only
    rw [if_pos hd]
  · intro resp s2 hcall hd
    simp only [listEmailTemplates, listRequest] at hcall ⊢
    rw [hcall]
    dsimp only
    rw [if_neg (by simp [hd])]

/-- A gateway stub whose listing call succeeds with a non-array body. -/
def nonArrayListClient : Client Unit :=
  ⟨fun _ s => (.ok (.obj [("data", .obj [("templates", .arr [])])]), s)⟩

/-- C6 counterexample: the listing call succeeds (no 404/405 is
reported), its body is an object rather than an array, and
`listEmailTemplates` nevertheless returns null — so null is not returned
exactly on 404/405. -/
theorem claim6_counterexample :
    (nonArrayListClient.call (listRequest "email-templates") ()).1
      = .ok (.obj [("data", .obj [("templates", .arr [])])])
    ∧ (listEmailTemplates nonArrayListClient "email-templates" ()).1 = .ok none :=
  ⟨rfl, rfl⟩

/-- Witness for C6: a 404 on the listing yields null, a success with an
array body yields the array. -/
theorem claim6_listing_witness :
    (unsupportedListClient.call (listRequest "email-templates") ()
        = (.err (.obj [("status", .num 404)]), ())
      ∧ (((JVal.obj [("status", .num 404)]).get "status").isNumLit 404
          || ((JVal.obj [("status", .num 404)]).get "status").isNumLit 405) = true
      ∧ (listEmailTemplates unsupportedListClient "email-templates" ()).1 = .ok none)
    ∧ ((arrayListClient [mkRemote (.str "1") (.str "SignIn") (.str "en") .null]).call
          (listRequest "email-templates") ()
        = (.ok (.obj [("data", .arr [mkRemote (.str "1") (.str "SignIn") (.str "en") .null])]), ())
      ∧ (listEmailTemplates (arrayListClient
            [mkRemote (.str "1") (.str "SignIn") (.str "en") .null]) "email-templates" ()).1
        = .ok (some [mkRemote (.str "1") (.str "SignIn") (.str "en") .null])) :=
  ⟨⟨rfl, rfl,
      (claim6_listing unsupportedListClient "email-templates" ()).2.1
        (.obj [("status", .num 404)]) () rfl rfl⟩,
    ⟨rfl,
      (claim6_listing (arrayListClient [mkRemote (.str "1") (.str "SignIn") (.str "en") .null])
          "email-templates" ()).2.2.2.1
        (.obj [("data", .arr [mkRemote (.str "1") (.str "SignIn") (.str "en") .null])]) ()
        rfl rfl⟩⟩

/-- A gateway stub that returns the given response object to every call. -/
def okRespClient (resp : JVal) : Client Unit :=
  ⟨fun _ s => (.ok resp, s)⟩

/-- The status value consulted by the single-strategy update. -/
def part000Status (resp : JVal) : JVal :=
  jor (resp.get "status") ((resp.get "response").get "status")

/-- The body value consulted by the single-strategy update. -/
def part000Result (resp : JVal) : JVal := jor (resp.get "data") resp

/-- The element picked from an array body (its head when non-empty). -/
def part000Template (r : JVal) : JVal :=
  if r.isArr && r.asArr.length > 0 then r.asArr.headD .undefined else r

/-- A template-like body: truthy with an `id` or `templateType` field. -/
def recognizableTemplate (t : JVal) : Bool :=
  t.truthy && ((t.get "id").truthy || (t.get "templateType").truthy)

/-- An empty or absent body. -/
def emptyBody (r : JVal) : Bool :=
  jstrictEq r .undefined || jstrictEq r .null || (r.typeofObject && r.keysLength == 0)

/-- An error-shaped body: an `error`, `code` or `message` field. -/
def errorShapedBody (r : JVal) : Bool :=
  (r.get "error").truthy || (r.get "code").truthy || (r.get "message").truthy

/-- A status field that marks the response failed. -/
def badStatus (v : JVal) : Bool := v.truthy && v.numGE 400

/-- C7 (corrected): the single-strategy update accepts a response exactly
when its status is not marked failed and its body is a recognizable
template (possibly the head of an array), or an empty body, or any truthy
object that carries none of the `error`/`code`/`message` fields — the
last case is accepted with a warning rather than treated as an error; on
an empty body the request payload is returned as the confirmed state, and
on a warn-accepted object that body itself is returned. Error-shape
detection applies only to bodies that reach the object case, after the
recognizable-template and empty-body cases. -/
theorem claim7_recognition (resp : JVal) (p : String) (id ft : JVal) :
    (Part000.tryUpdateById (okRespClient resp) p id ft ()).1.ok
      = (!badStatus (part000Status resp)
        && (recognizableTemplate (part000Template (part000Result resp))
          || emptyBody (part000Result resp)
          || ((part000Result resp).truthy && (part000Result resp).typeofObject
              && !errorShapedBody (part000Result resp))))
    ∧ (badStatus (part000Status resp) = false →
        recognizableTemplate (part000Template (part000Result resp)) = false →
        emptyBody (part000Result resp) = true →
        (Part000.tryUpdateById (okRespClient resp) p id ft ()).1.response = ft)
    ∧ (badStatus (part000Status resp) = false →
        recognizableTemplate (part000Template (part000Result resp)) = false →
        emptyBody (part000Result resp) = false →
        ((part000Result resp).truthy && (part000Result resp).typeofObject) = true →
        errorShapedBody (part000Result resp) = false →
        (Part000.tryUpdateById (okRespClient resp) p id ft ()).1.ok = true
        ∧ (Part000.tryUpdateById (okRespClient resp) p id ft ()).1.response
            = part000Result resp) := by
  simp only [Part000.tryUpdateById, okRespClient]
  by_cases h1 : ((jor (resp.get "status") ((resp.get "response").get "status")).truthy
      && (jor (resp.get "status") ((resp.get "response").get "status")).numGE 400) = true
  · rw [if_pos h1]
    refine ⟨?_, ?_, ?_⟩
    · simp [Part000.mkFail, badStatus, part000Status, h1]
    · intro hb _ _
      exact absurd h1 (by simp [badStatus, part000Status] at hb; simp; exact hb)
    · intro hb _ _ _ _
      exact absurd h1 (by simp [badStatus, part000Status] at hb; simp; exact hb)
  · rw [if_neg h1]
    have h1f : badStatus (part000Status resp) = false := by
      simp only [badStatus, part000Status]
      exact Bool.of_not_eq_true h1
    by_cases h2 : ((if (jor (resp.get "data") resp).isArr
          && (jor (resp.get "data") resp).asArr.length > 0 then
          (jor (resp.get "data") resp).asArr.headD .undefined
        else jor (resp.get "data") resp).truthy
        && (((if (jor (resp.get "data") resp).isArr
            && (jor (resp.get "data") resp).asArr.length > 0 then
            (jor (resp.get "data") resp).asArr.headD .undefined
          else jor (resp.get "data") resp).get "id").truthy
          || ((if (jor (resp.get "data") resp).isArr
              && (jor (resp.get "data") resp).asArr.length > 0 then
              (jor (resp.get "data") resp).asArr.headD .undefined
            else jor (resp.get "data") resp).get "templateType").truthy)) = true
    · rw [if_pos h2]
      have h2t : recognizableTemplate (part000Template (part000Result resp)) = true := by
        simpa [recognizableTemplate, part000Template, part000Result] using h2
      refine ⟨?_, ?_, ?_⟩
      · simp [h1f, h2t]
      · intro _ hr _
        exact absurd h2t (by simp [hr])
      · intro _ hr _ _ _
        exact absurd h2t (by simp [hr])
    · rw [if_neg h2]
      have h2f : recognizableTemplate (part000Template (part000Result resp)) = false := by
        simp only [recognizableTemplate, part000Template, part000Result]
        exact Bool.of_not_eq_true h2
      by_cases h3 : (jstrictEq (jor (resp.get "data") resp) .undefined
          || jstrictEq (jor (resp.get "data") resp) .null
          || ((jor (resp.get "data") resp).typeofObject
              && (jor (resp.get "data") resp).keysLength == 0)) = true
      · rw [if_pos h3]
        have h3t : emptyBody (part000Result resp) = true := by
          simpa [emptyBody, part000Result] using h3
        refine ⟨?_, ?_, ?_⟩
        · simp [h1f, h3t]
        · intro _ _ _
          rfl
        · intro _ _ he _ _
          exact absurd h3t (by simp [he])
      · rw [if_neg h3]
        have h3f : emptyBody (part000Result resp) = false := by
          simp only [emptyBody, part000Result]
          exact Bool.of_not_eq_true h3
        by_cases h4 : ((jor (resp.get "data") resp).truthy
            && (jor (resp.get "data") resp).typeofObject) = true
        · rw [if_pos h4]
          have h4t : ((part000Result resp).truthy
              && (part000Result resp).typeofObject) = true := by
            simpa [part000Result] using h4
          by_cases h5 : (((jor (resp.get "data") resp).get "error").truthy
              || ((jor (resp.get "data") resp).get "code").truthy
              || ((jor (resp.get "data") resp).get "message").truthy) = true
          · rw [if_pos h5]
            have h5t : errorShapedBody (part000Result resp) = true := by
              simpa [errorShapedBody, part000Result] using h5
            refine ⟨?_, ?_, ?_⟩
            · simp [Part000.mkFail, h1f, h2f, h3f, h5t]
            · intro _ _ he
              exact absurd he (by simp [h3f])
            · intro _ _ _ _ he
              exact absurd h5t (by simp [he])
          · rw [if_neg h5]
            have h5f : errorShapedBody (part000Result resp) = false := by
              simp only [errorShapedBody, part000Result]
              exact Bool.of_not_eq_true h5
            refine ⟨?_, ?_, ?_⟩
            · simp [h1f, h2f, h3f, h4t, h5f]
            · intro _ _ he
              exact absurd he (by simp [h3f])
            · intro _ _ _ _ _
              exact ⟨rfl, rfl⟩
        · rw [if_neg h4]
          have h4f : ((part000Result resp).truthy
              && (part000Result resp).typeofObject) = false := by
            simp only [part000Result]
            exact Bool.of_not_eq_true h4
          refine ⟨?_, ?_, ?_⟩
          · simp [Part000.mkFail, h1f, h2f, h3f, h4f]
          · intro _ _ he
            exact absurd he (by simp [h3f])
          · intro _ _ _ ht _
            exact absurd ht (by simp [h4f])

/-- C7 counterexample: a 200 response whose body is the object with a
single unknown field is neither template-like, nor empty, nor
error-shaped, yet the update accepts it (with only a console warning) and
returns it as the confirmed state — an unrecognized body is silently
accepted rather than treated as an error. -/
theorem claim7_counterexample :
    recognizableTemplate (part000Template (part000Result
        (.obj [("data", .obj [("foo", .num 1)])]))) = false
    ∧ emptyBody (part000Result (.obj [("data", .obj [("foo", .num 1)])])) = false
    ∧ errorShapedBody (part000Result (.obj [("data", .obj [("foo", .num 1)])])) = false
    ∧ (Part000.tryUpdateById (okRespClient (.obj [("data", .obj [("foo", .num 1)])]))
        "email-templates" (.str "T1") (fullTemplateOf ⟨"SignIn", "en", .null⟩) ()).1.ok
      = true
    ∧ (Part000.tryUpdateById (okRespClient (.obj [("data", .obj [("foo", .num 1)])]))
        "email-templates" (.str "T1") (fullTemplateOf ⟨"SignIn", "en", .null⟩) ()).1.response
      = .obj [("foo", .num 1)] :=
  ⟨rfl, rfl, rfl, rfl, rfl⟩

/-- Witness for C7: an empty object body is accepted as success and the
request payload is returned as the confirmed state. -/
theorem claim7_recognition_witness :
    badStatus (part000Status (.obj [("data", .obj [])])) = false
    ∧ recognizableTemplate (part000Template (part000Result (.obj [("data", .obj [])]))) = false
    ∧ emptyBody (part000Result (.obj [("data", .obj [])])) = true
    ∧ (Part000.tryUpdateById (okRespClient (.obj [("data", .obj [])])) "email-templates"
        (.str "T1") (fullTemplateOf ⟨"SignIn", "en", .null⟩) ()).1.response
      = fullTemplateOf ⟨"SignIn", "en", .null⟩ :=
  ⟨rfl, rfl, rfl,
    (claim7_recognition (.obj [("data", .obj [])]) "email-templates" (.str "T1")
      (fullTemplateOf ⟨"SignIn", "en", .null⟩)).2.1 rfl rfl rfl⟩

/-- C8: export throws the listing-unavailable error (whose message names
the `LOGTO_EMAIL_TEMPLATES_PATH` override) exactly when the listing
returned null; with an authoritative listing it never errors, returns the
count of remote templates seen — including entries it skips — together
with the resolved output directory, and performs no filesystem write for
any entry missing `templateType`, `languageTag` or `details`; a hard
listing failure propagates as an error. -/
theorem claim8_export {σ : Type} (c : Client σ) (resolve : String → String)
    (p outDir : String) (s : σ) :
    (∀ t, ((t.get "templateType").truthy && (t.get "languageTag").truthy
        && (t.get "details").truthy) = false →
      EmailTemplatesApi.entryOps (resolve outDir) t = [])
    ∧ ((listEmailTemplates c p s).1 = .ok none →
        (EmailTemplatesApi.exportEmailTemplates c resolve p outDir s).1
          = .error EmailTemplatesApi.listingUnavailableMsg)
    ∧ (∀ rts, (listEmailTemplates c p s).1 = .ok (some rts) →
        (EmailTemplatesApi.exportEmailTemplates c resolve p outDir s).1
          = .ok ⟨rts.length, resolve outDir, rts⟩
        ∧ (EmailTemplatesApi.exportEmailTemplates c resolve p outDir s).2.2.1
          = EmailTemplatesApi.FsOp.mkdir (resolve outDir)
            :: rts.flatMap (EmailTemplatesApi.entryOps (resolve outDir)))
    ∧ (exceptIsErr (listEmailTemplates c p s).1 = true →
        exceptIsErr (EmailTemplatesApi.exportEmailTemplates c resolve p outDir s).1
          = true) := by
  refine ⟨?_, ?_, ?_, ?_⟩
  · intro t h
    simp [EmailTemplatesApi.entryOps, h]
  · rcases hl : listEmailTemplates c p s with ⟨res, tr, s1⟩
    intro h
    dsimp only at h
    subst h
    simp only [EmailTemplatesApi.exportEmailTemplates, hl]
  · intro rts
    rcases hl : listEmailTemplates c p s with ⟨res, tr, s1⟩
    intro h
    dsimp only at h
    subst h
    simp only [EmailTemplatesApi.exportEmailTemplates, hl]
    refine ⟨?_, ?_⟩ <;> first | rfl | trivial
  · rcases hl : listEmailTemplates c p s with ⟨res, tr, s1⟩
    intro h
    cases res with
    | ok o => exact absurd h (by simp [exceptIsErr])
    | error e =>
      simp only [EmailTemplatesApi.exportEmailTemplates, hl]
      rfl

/-- The listing used by the export witness: one complete entry and one
entry with no language tag and no details. -/
def exportSampleListing : List JVal :=
  [mkRemote (.str "1") (.str "SignIn") (.str "en")
      (.obj [("subject", .str "Hi"), ("content", .str "Body")]),
   .obj [("templateType", .str "SignIn")]]

/-- Witness for C8: exporting a two-entry listing whose second entry is
incomplete reports a count of two — the number seen, not written — and
writes files only for the complete entry. -/
theorem claim8_export_witness :
    ((((JVal.obj [("templateType", .str "SignIn")]).get "templateType").truthy
        && ((JVal.obj [("templateType", .str "SignIn")]).get "languageTag").truthy
        && ((JVal.obj [("templateType", .str "SignIn")]).get "details").truthy) = false
      ∧ EmailTemplatesApi.entryOps ((fun x => x) "out")
          (.obj [("templateType", .str "SignIn")]) = [])
    ∧ ((listEmailTemplates (arrayListClient exportSampleListing) "email-templates" ()).1
        = .ok (some exportSampleListing)
      ∧ (EmailTemplatesApi.exportEmailTemplates (arrayListClient exportSampleListing)
          (fun x => x) "email-templates" "out" ()).1
        = .ok ⟨exportSampleListing.length, (fun x => x) "out", exportSampleListing⟩
      ∧ (EmailTemplatesApi.exportEmailTemplates (arrayListClient exportSampleListing)
          (fun x => x) "email-templates" "out" ()).2.2.1
        = EmailTemplatesApi.FsOp.mkdir ((fun x => x) "out")
          :: exportSampleListing.flatMap (EmailTemplatesApi.entryOps ((fun x => x) "out"))) :=
  ⟨⟨rfl,
      (claim8_export (arrayListClient exportSampleListing) (fun x => x)
        "email-templates" "out" ()).1 (.obj [("templateType", .str "SignIn")]) rfl⟩,
    rfl,
    (claim8_export (arrayListClient exportSampleListing) (fun x => x)
      "email-templates" "out" ()).2.2.1 exportSampleListing rfl⟩

theorem map_id_of {A : Type} (f : A → A) (l : List A) (h : ∀ x ∈ l, f x = x) :
    l.map f = l := by
  induction l with
  | nil => rfl
  | cons a l ih =>
    rw [List.map_cons, h a (List.mem_cons_self a l)]
    rw [ih (fun x hx => h x (List.mem_cons_of_mem a hx))]

theorem upsertOne_same (st : List JVal) (l : LocalTemplate)
    (hex : ∃ r ∈ st, remoteKey r = makeKey l.templateType l.languageTag)
    (hsh : ∀ r ∈ st, remoteKey r = makeKey l.templateType l.languageTag →
      r = mkRemote (r.get "id") (.str l.templateType) (.str l.languageTag) l.details) :
    upsertOne st (fullTemplateOf l) = st := by
  unfold upsertOne
  have hk : remoteKey (fullTemplateOf l) = makeKey l.templateType l.languageTag := rfl
  rw [hk]
  have hany : st.any (fun r => remoteKey r == makeKey l.templateType l.languageTag) = true := by
    rcases hex with ⟨r, hr, hkr⟩
    exact List.any_eq_true.mpr ⟨r, hr, by simp [hkr]⟩
  rw [if_pos hany]
  apply map_id_of
  intro r hr
  by_cases hkr : (remoteKey r == makeKey l.templateType l.languageTag) = true
  · rw [if_pos hkr]
    have hshape := hsh r hr (by simpa using hkr)
    exact hshape.symm
  · rw [if_neg hkr]

theorem foldl_upsertOne_id (st : List JVal) (ts : List JVal)
    (h : ∀ t ∈ ts, upsertOne st t = st) : ts.foldl upsertOne st = st := by
  induction ts with
  | nil => rfl
  | cons t ts ih =>
    rw [List.foldl_cons, h t (List.mem_cons_self t ts)]
    exact ih (fun u hu => h u (List.mem_cons_of_mem t hu))

/-- A remote state as one successful sync leaves it, relative to a local
template set: every local key is present, every entry carrying a local
key has exactly the stored shape with that local template's details, and
the local identity fields are non-empty. -/
def SyncedState (st : List JVal) (locals : List LocalTemplate) : Prop :=
  (∀ l ∈ locals, ∃ r ∈ st, remoteKey r = makeKey l.templateType l.languageTag)
  ∧ (∀ l ∈ locals, ∀ r ∈ st, remoteKey r = makeKey l.templateType l.languageTag →
      r = mkRemote (r.get "id") (.str l.templateType) (.str l.languageTag) l.details)
  ∧ (∀ l ∈ locals, l.templateType ≠ "" ∧ l.languageTag ≠ "")

/-- C9: sync is idempotent against the spec-modelled remote service: when
every local template's key already exists remotely with that template's
details (as after one successful sync), running apply-mode sync again
computes the update action for every item and the bulk write it issues
leaves the remote state exactly as it was. -/
theorem claim9_idempotent (p : String) (locals : List LocalTemplate) (st : List JVal)
    (hsync : SyncedState st locals) :
    ∃ rs, (EmailTemplatesApi.syncEmailTemplates specServer p locals false false st).1
        = .ok rs
      ∧ rs.map (fun r => r.localT) = locals
      ∧ (∀ r ∈ rs, r.action = "update")
      ∧ (EmailTemplatesApi.syncEmailTemplates specServer p locals false false st).2.2
        = st := by
  obtain ⟨hex, hsh, hne⟩ := hsync
  have hfold : (locals.map fullTemplateOf).foldl upsertOne st = st := by
    apply foldl_upsertOne_id
    intro t ht
    rcases List.mem_map.mp ht with ⟨l, hl, rfl⟩
    exact upsertOne_same st l (hex l hl) (hsh l hl)
  have hlist : listEmailTemplates specServer p st
      = (.ok (some st), [listRequest p], st) := rfl
  have hcall2 : specServer.call
      ⟨.PUT, "/api/" ++ p, .obj [("templates", .arr (locals.map fullTemplateOf))]⟩ st
      = (.ok (.obj [("status", .num 200),
          ("data", .arr ((locals.map fullTemplateOf).foldl upsertOne st))]),
         (locals.map fullTemplateOf).foldl upsertOne st) := rfl
  rw [hfold] at hcall2
  simp only [EmailTemplatesApi.syncEmailTemplates, hlist]
  rw [hcall2]
  dsimp only
  have hst0 : ((jor ((JVal.obj [("status", .num 200), ("data", .arr st)]).get "status")
      (((JVal.obj [("status", .num 200), ("data", .arr st)]).get "response").get
        "status")).truthy
      && (jor ((JVal.obj [("status", .num 200), ("data", .arr st)]).get "status")
      (((JVal.obj [("status", .num 200), ("data", .arr st)]).get "response").get
        "status")).numGE 400) = false := rfl
  rw [hst0, if_neg Bool.false_ne_true]
  refine ⟨_, rfl, ?_, ?_, rfl⟩
  · rw [List.map_map, List.map_map]
    apply map_id_of
    intro l hl
    rfl
  · intro r hr
    rcases List.mem_map.mp hr with ⟨r1, hr1, hrg⟩
    rcases List.mem_map.mp hr1 with ⟨l, hl, hrf⟩
    subst hrg
    subst hrf
    obtain ⟨r0, hr0, hk0⟩ := hex l hl
    have hshape := hsh l hl r0 hr0 hk0
    have hTT : ((r0.get "templateType").truthy && (r0.get "languageTag").truthy) = true := by
      rw [hshape]
      have hg1 : (mkRemote (r0.get "id") (.str l.templateType) (.str l.languageTag)
          l.details).get "templateType" = .str l.templateType := rfl
      have hg2 : (mkRemote (r0.get "id") (.str l.templateType) (.str l.languageTag)
          l.details).get "languageTag" = .str l.languageTag := rfl
      rw [hg1, hg2]
      have h1 : (JVal.str l.templateType).truthy = true := by
        simp [JVal.truthy]
        exact (hne l hl).1
      have h2 : (JVal.str l.languageTag).truthy = true := by
        simp [JVal.truthy]
        exact (hne l hl).2
      rw [h1, h2]
      rfl
    have hsome := (buildIndex_isSome_iff st
        (makeKey l.templateType l.languageTag)).mpr ⟨r0, hr0, hTT, hk0⟩
    have htr : (idxGetJ (buildIndex st) (makeKey l.templateType l.languageTag)).truthy
        = true := by
      rw [idxGetJ_truthy_iff _ _ (buildIndex_values st)]
      exact hsome
    show (if (idxGetJ (buildIndex st) (makeKey l.templateType l.languageTag)).truthy = true
        then "update" else "create") = "update"
    rw [if_pos htr]

/-- Witness for C9 at a one-template local set and the matching remote
state. -/
theorem claim9_idempotent_witness :
    SyncedState [mkRemote (.str "1") (.str "SignIn") (.str "en") .null]
        [⟨"SignIn", "en", .null⟩]
    ∧ ∃ rs, (EmailTemplatesApi.syncEmailTemplates specServer "email-templates"
          [⟨"SignIn", "en", .null⟩] false false
          [mkRemote (.str "1") (.str "SignIn") (.str "en") .null]).1 = .ok rs
      ∧ rs.map (fun r => r.localT) = [⟨"SignIn", "en", .null⟩]
      ∧ (∀ r ∈ rs, r.action = "update")
      ∧ (EmailTemplatesApi.syncEmailTemplates specServer "email-templates"
          [⟨"SignIn", "en", .null⟩] false false
          [mkRemote (.str "1") (.str "SignIn") (.str "en") .null]).2.2
        = [mkRemote (.str "1") (.str "SignIn") (.str "en") .null] := by
  have hss : SyncedState [mkRemote (.str "1") (.str "SignIn") (.str "en") .null]
      [⟨"SignIn", "en", .null⟩] := by
    refine ⟨?_, ?_, ?_⟩
    · intro l hl
      rw [List.mem_singleton] at hl
      subst hl
      exact ⟨mkRemote (.str "1") (.str "SignIn") (.str "en") .null,
        List.mem_singleton.mpr rfl, rfl⟩
    · intro l hl r hr hk
      rw [List.mem_singleton] at hl
      rw [List.mem_singleton] at hr
      subst hl
      subst hr
      rfl
    · intro l hl
      rw [List.mem_singleton] at hl
      subst hl
      exact ⟨by decide, by decide⟩
  exact ⟨hss, claim9_idempotent "email-templates" [⟨"SignIn", "en", .null⟩]
    [mkRemote (.str "1") (.str "SignIn") (.str "en") .null] hss⟩

/-- Scans a character list for two adjacent colons. -/
def hasDoubleColon : List Char → Bool
  | [] => false
  | [_] => false
  | a :: b :: rest => (a == ':' && b == ':') || hasDoubleColon (b :: rest)

/-- Whether a string contains the `::` substring. -/
def containsColonColon (s : String) : Bool := hasDoubleColon s.data

theorem makeKey_data (t l : String) :
    (makeKey t l).data = t.data ++ ':' :: ':' :: l.data := by
  show (t ++ "::" ++ l).data = t.data ++ ':' :: ':' :: l.data
  rw [String.data_append, String.data_append]
  rw [List.append_assoc]
  rfl

theorem sep_append_inj (a : List Char) :
    ∀ (c b d : List Char), ':' ∉ a → ':' ∉ c →
      a ++ ':' :: ':' :: b = c ++ ':' :: ':' :: d → a = c ∧ b = d := by
  induction a with
  | nil =>
    intro c b d ha hc h
    cases c with
    | nil =>
      simp only [List.nil_append] at h
      rw [List.cons.injEq, List.cons.injEq] at h
      exact ⟨rfl, h.2.2⟩
    | cons y c =>
      simp only [List.nil_append, List.cons_append] at h
      rw [List.cons.injEq] at h
      exact absurd (h.1 ▸ List.mem_cons_self y c) hc
  | cons x a ih =>
    intro c b d ha hc h
    cases c with
    | nil =>
      simp only [List.cons_append, List.nil_append] at h
      rw [List.cons.injEq] at h
      exact absurd (h.1 ▸ List.mem_cons_self x a) ha
    | cons y c =>
      simp only [List.cons_append] at h
      rw [List.cons.injEq] at h
      have hrec := ih c b d (fun hm => ha (List.mem_cons_of_mem x hm))
        (fun hm => hc (List.mem_cons_of_mem y hm)) h.2
      exact ⟨by rw [h.1, hrec.1], hrec.2⟩

/-- C10 (corrected): the pairing key is not injective — the claim's own
example pair collides — and avoiding the `::` substring in the components
is not enough: a template type ending in a colon and a language tag
starting with one also collide although no component contains `::`.
Injectivity does hold when the template types contain no colon at all. -/
theorem claim10_makeKey (t1 l1 t2 l2 : String) :
    (makeKey "a::b" "c" = makeKey "a" "b::c"
      ∧ ¬ (("a::b" : String) = "a" ∧ ("c" : String) = "b::c"))
    ∧ (makeKey "a:" "b" = makeKey "a" ":b"
      ∧ containsColonColon "a:" = false ∧ containsColonColon "b" = false
      ∧ containsColonColon "a" = false ∧ containsColonColon ":b" = false
      ∧ ¬ (("a:" : String) = "a" ∧ ("b" : String) = ":b"))
    ∧ (':' ∉ t1.data → ':' ∉ t2.data →
        makeKey t1 l1 = makeKey t2 l2 → t1 = t2 ∧ l1 = l2) := by
  refine ⟨⟨by decide, by decide⟩, ⟨by decide, by decide, by decide, by decide, by decide,
    by decide⟩, ?_⟩
  intro h1 h2 hk
  have hdata := congrArg String.data hk
  rw [makeKey_data, makeKey_data] at hdata
  obtain ⟨hts, hls⟩ := sep_append_inj t1.data t2.data l1.data l2.data h1 h2 hdata
  exact ⟨String.ext hts, String.ext hls⟩

/-- Witness for C10 at colon-free template types. -/
theorem claim10_makeKey_witness :
    (':' ∉ "SignIn".data ∧ ':' ∉ "Reset".data)
    ∧ (makeKey "SignIn" "en" = makeKey "SignIn" "en"
      → ("SignIn" : String) = "SignIn" ∧ ("en" : String) = "en") :=
  ⟨⟨by decide, by decide⟩,
    fun hk => (claim10_makeKey "SignIn" "en" "SignIn" "en").2.2
      (by decide) (by decide) hk⟩

/-- C10 counterexample: two distinct pairs whose components are all free
of the `::` substring still produce the same key, so makeKey is not
injective on the domain the claim names. -/
theorem claim10_counterexample :
    makeKey "a:" "b" = makeKey "a" ":b"
    ∧ containsColonColon "a:" = false ∧ containsColonColon "b" = false
    ∧ containsColonColon "a" = false ∧ containsColonColon ":b" = false
    ∧ ¬ (("a:" : String) = "a" ∧ ("b" : String) = ":b") := by
  decide
